import Mathlib

/-!
Shallow embedding of the tender-tracker ingestion pipeline
(src/tender_scraper.py) and proofs about its date normalizer,
categorizer, filter/alert policy, deduplication and persistence layer.

Conventions of the embedding:
* Python strings are Lean String / List Char (the data is ASCII).
* Python datetime values are modelled at second granularity by
  PyDateTime: a civil date plus the number of seconds since midnight.
  Each Python function that calls datetime.now() takes the current
  instant as an explicit parameter (the source calls datetime.now()
  several times during one computation; the embedding threads a single
  instant, since the calls happen within one run).
* Python int is Int; the floor semantics of timedelta.days and of the
  Python percent operator are Int.fdiv and Int.emod.
* Calls to external services (Google Sheets, SMTP) are modelled by
  explicit success flags and by the worksheet state, a list of rows.
* datetime.strptime is embedded for exactly the five formats the source
  uses, following the CPython _strptime regexes: a format matches the
  whole string, percent-d and percent-m accept one or two digits with
  regex-alternation backtracking, percent-Y takes exactly four digits,
  month names are matched case-insensitively, a space in the format
  consumes one or more whitespace characters, and the resulting
  (year, month, day) must be a valid calendar date.
-/

deriving instance DecidableEq for Except

/-! ### Character helpers -/

def isDigitCh (c : Char) : Bool :=
  decide ('0' ≤ c ∧ c ≤ '9')

def digitVal (c : Char) : Nat :=
  c.toNat - 48

/-- Decimal digit character of a value below ten. -/
def digitChar : Nat → Char
  | 0 => '0' | 1 => '1' | 2 => '2' | 3 => '3' | 4 => '4'
  | 5 => '5' | 6 => '6' | 7 => '7' | 8 => '8' | 9 => '9'
  | _ => '?'

/-- The whitespace class of the Python regex escape backslash-s and of
str.strip, restricted to ASCII. -/
def isWsCh (c : Char) : Bool :=
  c == ' ' || c == '\t' || c == '\n' || c == '\r' || c == '\x0b' || c == '\x0c'

def isAlphaCh (c : Char) : Bool :=
  decide (('A' ≤ c ∧ c ≤ 'Z') ∨ ('a' ≤ c ∧ c ≤ 'z'))

/-- Substring test on character lists: Python needle-in-haystack. -/
def hasSubCs (needle : List Char) : List Char → Bool
  | [] => needle.isEmpty
  | c :: rest => needle.isPrefixOf (c :: rest) || hasSubCs needle rest

/-- Python substring containment, needle in hay. -/
def pyContains (hay needle : String) : Bool :=
  hasSubCs needle.data hay.data

/-- Python str.lower on ASCII data. -/
def pyLower (s : String) : String :=
  String.mk (s.data.map Char.toLower)

/-- Python str.strip: drop whitespace from both ends. -/
def pyStripCs (cs : List Char) : List Char :=
  (((cs.dropWhile isWsCh).reverse.dropWhile isWsCh)).reverse

/-- Python replace of every occurrence of the literal "Closing:" by the
empty string, scanning left to right (str.replace semantics for this
fixed needle). -/
def removeClosingTag : List Char → List Char
  | 'C' :: 'l' :: 'o' :: 's' :: 'i' :: 'n' :: 'g' :: ':' :: rest => removeClosingTag rest
  | c :: rest => c :: removeClosingTag rest
  | [] => []

/-- The cleaning step shared by the date helpers of the source:
raw.replace with the Closing tag removed, then str.strip. -/
def cleanDateCs (s : String) : List Char :=
  pyStripCs (removeClosingTag s.data)

/-- First 500 characters, Python slice s up to 500. -/
def pyTake (n : Nat) (s : String) : String :=
  String.mk (s.data.take n)

/-! ### Calendar arithmetic -/

/-- Days since the epoch 1970-01-01 of a civil date
(the standard days-from-civil algorithm). -/
def daysFromCivil (y m d : Int) : Int :=
  let yy := if m ≤ 2 then y - 1 else y
  let era := Int.fdiv yy 400
  let yoe := yy - era * 400
  let mp := Int.emod (m + 9) 12
  let doy := Int.fdiv (153 * mp + 2) 5 + d - 1
  let doe := yoe * 365 + Int.fdiv yoe 4 - Int.fdiv yoe 100 + doy
  era * 146097 + doe - 719468

def isLeapYear (y : Int) : Bool :=
  (Int.emod y 4 == 0 && Int.emod y 100 != 0) || Int.emod y 400 == 0

def daysInMonth (y m : Int) : Int :=
  if m == 2 then (if isLeapYear y then 29 else 28)
  else if m == 4 || m == 6 || m == 9 || m == 11 then 30
  else 31

/-- The dates accepted by the datetime constructor (ValueError otherwise). -/
def validDate (y m d : Int) : Bool :=
  decide (1 ≤ m ∧ m ≤ 12 ∧ 1 ≤ d ∧ d ≤ daysInMonth y m ∧ 1 ≤ y ∧ y ≤ 9999)

/-- A Python datetime: civil date plus seconds since midnight. -/
structure PyDateTime where
  year : Int
  month : Int
  day : Int
  secs : Int
deriving DecidableEq

/-- Seconds since the epoch; datetime comparison and subtraction are
carried out on this value. -/
def epochSecs (t : PyDateTime) : Int :=
  86400 * daysFromCivil t.year t.month t.day + t.secs

/-- timedelta.days of the difference of two instants: floor division of
the elapsed seconds by 86400. -/
def tdDays (later earlier : Int) : Int :=
  Int.fdiv (later - earlier) 86400

/-! ### Configuration tables of the source -/

/-- CATEGORIES: the single insurance entry with its keyword list,
transcribed verbatim (note the upper-case keyword D&O). -/
def CATEGORIES : List (String × List String) :=
  [("insurance",
    ["insurance", "broker", "risk management", "underwriting",
     "policy", "premium", "claim", "sasria", "fidelity",
     "liability", "indemnity", "surety", "bond", "actuarial",
     "loss control", "marine", "aviation", "motor fleet",
     "short-term", "medical aid", "pension", "provident", "guarantee",
     "group life", "funeral cover", "professional indemnity",
     "public liability", "employers liability", "property insurance",
     "motor insurance", "asset insurance", "business interruption",
     "cyber insurance", "directors and officers", "D&O", "surety bond",
     "insurance broker", "reinsurance", "loss assessor", "claims handler"])]

def PRIORITY_BUYERS : List String :=
  ["Chief Albert Luthuli Municipality",
   "Financial and Fiscal Commission",
   "CIDB",
   "National Treasury",
   "AEMFC",
   "ERWAT",
   "MQA",
   "TASEZ",
   "ARC",
   "MerSETA",
   "Mogalakwena"]

def RAW_DATA_HEADERS : List String :=
  ["Date_Scraped", "Source", "Tender_ID", "Title",
   "Buyer", "Category", "Closing_Date", "Days_Remaining",
   "Value_ZAR", "Description", "Document_Link",
   "Status", "Priority_Buyer", "Alert_Sent"]

/-! ### Categorizer and priority-buyer test -/

/-- BaseScraper.categorize_tender: lower-case the concatenated text and
return the first category one of whose keywords occurs in it; note that
the keywords themselves are NOT lower-cased by the source. -/
def categorize_tender (title description : String) : String :=
  let text := pyLower (title ++ " " ++ description)
  match CATEGORIES.find? (fun c => c.2.any (fun kw => pyContains text kw)) with
  | some c => c.1
  | none => "uncategorized"

/-- The priority-buyer check used by every scraper:
any(pb.lower() in buyer.lower() for pb in PRIORITY_BUYERS). -/
def is_priority_buyer (buyer : String) : Bool :=
  PRIORITY_BUYERS.any (fun pb => pyContains (pyLower buyer) (pyLower pb))

/-! ### strptime for the five formats of the source -/

/-- Second half of the CPython regex for percent-d,
3[01]|[12]d|0[1-9], deciding whether two digits a b can be taken. -/
def dayPat (a b : Nat) : Bool :=
  (a == 3 && (b == 0 || b == 1)) || a == 1 || a == 2 || (a == 0 && b != 0)

/-- Pattern for percent-m two-digit alternatives, 1[0-2]|0[1-9]. -/
def monPat (a b : Nat) : Bool :=
  (a == 1 && (b == 0 || b == 1 || b == 2)) || (a == 0 && b != 0)

/-- percent-d with continuation: try the two-digit alternatives first,
then fall back to a single digit 1-9, as regex alternation does. -/
def parseDay2 {α : Type} (k : Nat → List Char → Option α) : List Char → Option α
  | c1 :: c2 :: rest =>
    if isDigitCh c1 && isDigitCh c2 && dayPat (digitVal c1) (digitVal c2) then
      match k (10 * digitVal c1 + digitVal c2) rest with
      | some v => some v
      | none =>
        if digitVal c1 != 0 then k (digitVal c1) (c2 :: rest) else none
    else if isDigitCh c1 && digitVal c1 != 0 then
      k (digitVal c1) (c2 :: rest)
    else none
  | [c1] => if isDigitCh c1 && digitVal c1 != 0 then k (digitVal c1) [] else none
  | [] => none

/-- percent-m with continuation, same backtracking shape as percent-d. -/
def parseMon2 {α : Type} (k : Nat → List Char → Option α) : List Char → Option α
  | c1 :: c2 :: rest =>
    if isDigitCh c1 && isDigitCh c2 && monPat (digitVal c1) (digitVal c2) then
      match k (10 * digitVal c1 + digitVal c2) rest with
      | some v => some v
      | none =>
        if digitVal c1 != 0 then k (digitVal c1) (c2 :: rest) else none
    else if isDigitCh c1 && digitVal c1 != 0 then
      k (digitVal c1) (c2 :: rest)
    else none
  | [c1] => if isDigitCh c1 && digitVal c1 != 0 then k (digitVal c1) [] else none
  | [] => none

/-- percent-Y: exactly four digits. -/
def parseYear4 {α : Type} (k : Nat → List Char → Option α) : List Char → Option α
  | c1 :: c2 :: c3 :: c4 :: rest =>
    if isDigitCh c1 && isDigitCh c2 && isDigitCh c3 && isDigitCh c4 then
      k (1000 * digitVal c1 + 100 * digitVal c2 + 10 * digitVal c3 + digitVal c4) rest
    else none
  | _ => none

/-- A literal character of the format string. -/
def litThen {α : Type} (lit : Char) (k : List Char → Option α) : List Char → Option α
  | c :: rest => if c == lit then k rest else none
  | [] => none

/-- A space in a strptime format: one or more whitespace characters.
The token after it in every format used here starts with a
non-whitespace character, so maximal munch agrees with the regex. -/
def parseWs1 {α : Type} (k : List Char → Option α) : List Char → Option α
  | c :: rest => if isWsCh c then k (rest.dropWhile isWsCh) else none
  | [] => none

/-- English month names in the order CPython compiles them into the
regex for percent-B: sorted by length, longest first, original calendar
order among equals. No name is a prefix of another. -/
def monthFullTable : List (String × Nat) :=
  [("september", 9), ("february", 2), ("november", 11), ("december", 12),
   ("january", 1), ("october", 10), ("august", 8), ("march", 3),
   ("april", 4), ("june", 6), ("july", 7), ("may", 5)]

/-- Abbreviated month names for percent-b (all of length three). -/
def monthAbbrTable : List (String × Nat) :=
  [("jan", 1), ("feb", 2), ("mar", 3), ("apr", 4), ("may", 5), ("jun", 6),
   ("jul", 7), ("aug", 8), ("sep", 9), ("oct", 10), ("nov", 11), ("dec", 12)]

/-- Case-insensitive month-name alternation with continuation. -/
def parseNameFrom {α : Type} (tbl : List (String × Nat))
    (k : Nat → List Char → Option α) (cs : List Char) : Option α :=
  tbl.findSome? (fun nm =>
    if nm.1.data.isPrefixOf (cs.map Char.toLower) then
      k nm.2 (cs.drop nm.1.data.length)
    else none)

/-- The parsed result of one strptime call. -/
structure CivilDate where
  year : Int
  month : Int
  day : Int
deriving DecidableEq

/-- Shared tail of every format: the input must be exhausted and the
date must be constructible. -/
def finishDate (y m d : Nat) (rest : List Char) : Option CivilDate :=
  if rest.isEmpty && validDate (y : Int) (m : Int) (d : Int) then
    some ⟨(y : Int), (m : Int), (d : Int)⟩
  else none

/-- strptime with format percent-Y dash percent-m dash percent-d. -/
def strpISO (cs : List Char) : Option CivilDate :=
  parseYear4 (fun y =>
    litThen '-' (parseMon2 (fun m =>
      litThen '-' (parseDay2 (fun d => finishDate y m d))))) cs

/-- strptime with format percent-d slash percent-m slash percent-Y. -/
def strpSlash (cs : List Char) : Option CivilDate :=
  parseDay2 (fun d =>
    litThen '/' (parseMon2 (fun m =>
      litThen '/' (parseYear4 (fun y => finishDate y m d))))) cs

/-- strptime with format percent-d dash percent-m dash percent-Y. -/
def strpDash (cs : List Char) : Option CivilDate :=
  parseDay2 (fun d =>
    litThen '-' (parseMon2 (fun m =>
      litThen '-' (parseYear4 (fun y => finishDate y m d))))) cs

/-- strptime with format percent-d space percent-B space percent-Y. -/
def strpDayMonthFull (cs : List Char) : Option CivilDate :=
  parseDay2 (fun d =>
    parseWs1 (parseNameFrom monthFullTable (fun m =>
      parseWs1 (parseYear4 (fun y => finishDate y m d))))) cs

/-- strptime with format percent-d space percent-b space percent-Y. -/
def strpDayMonAbbr (cs : List Char) : Option CivilDate :=
  parseDay2 (fun d =>
    parseWs1 (parseNameFrom monthAbbrTable (fun m =>
      parseWs1 (parseYear4 (fun y => finishDate y m d))))) cs

/-- The format loop of the source: try each of the five formats in the
declared priority order, returning on first success. -/
def strptimeFirst (cs : List Char) : Option CivilDate :=
  match strpISO cs with
  | some v => some v
  | none =>
    match strpSlash cs with
    | some v => some v
    | none =>
      match strpDash cs with
      | some v => some v
      | none =>
        match strpDayMonthFull cs with
        | some v => some v
        | none => strpDayMonAbbr cs

/-! ### The regex extraction of day and month abbreviation -/

/-- After the digits: backslash-s plus, then capture [A-Za-z] plus.
Returns the letter run when both succeed. -/
def wsThenLetters (r : List Char) : Option (List Char) :=
  match r with
  | r0 :: _ =>
    if isWsCh r0 then
      let ls := (r.dropWhile isWsCh).takeWhile isAlphaCh
      if ls.isEmpty then none else some ls
    else none
  | [] => none

/-- One attempt of the pattern at the current position, first character
c1 already known to be a digit is NOT assumed; callers check it.
Greedy: two digits if possible, then backtrack to one. -/
def dayMonAt (c1 : Char) (rest : List Char) : Option (List Char × List Char) :=
  match rest with
  | c2 :: rest2 =>
    if isDigitCh c2 then
      match wsThenLetters rest2 with
      | some ls => some ([c1, c2], ls)
      | none =>
        match wsThenLetters rest with
        | some ls => some ([c1], ls)
        | none => none
    else
      match wsThenLetters rest with
      | some ls => some ([c1], ls)
      | none => none
  | [] => none

/-- re.search for one-or-two digits, whitespace, letters: leftmost
match, scanning position by position. Returns the captured digit
characters and letter characters. -/
def dayMonSearch : List Char → Option (List Char × List Char)
  | [] => none
  | c1 :: rest =>
    match (if isDigitCh c1 then dayMonAt c1 rest else none) with
    | some v => some v
    | none => dayMonSearch rest

/-- The months dictionary mapping lowered three-letter abbreviations to
two-digit month strings, shared by the three date helpers. -/
def monthsMap : List (String × String) :=
  [("jan", "01"), ("feb", "02"), ("mar", "03"), ("apr", "04"),
   ("may", "05"), ("jun", "06"), ("jul", "07"), ("aug", "08"),
   ("sep", "09"), ("oct", "10"), ("nov", "11"), ("dec", "12")]

/-- Value of a short digit string, Python int. -/
def natOfDigs (ds : List Char) : Nat :=
  ds.foldl (fun a c => 10 * a + digitVal c) 0

/-- Python day.zfill(2) for the at-most-two captured digit characters. -/
def zfill2 (ds : List Char) : List Char :=
  if ds.length == 1 then '0' :: ds else ds

/-- The iso-like output string built by the source,
f-string year dash month_num dash day.zfill(2). -/
def isoOfParts (year : Int) (mnum : String) (dayCs : List Char) : String :=
  toString year ++ "-" ++ mnum ++ "-" ++ String.mk (zfill2 dayCs)

/-- BaseScraper.calculate_days_remaining. The source first applies the
day-plus-month-abbreviation regex with year inference, rewriting the
input string on success, and only then tries the five full formats; an
unparsable string yields 0 and a parsed date yields
max 0 (closing midnight minus now).days. -/
def calculate_days_remaining (now : PyDateTime) (closing_date_str : String) : Int :=
  let cs := closing_date_str.data
  let cs2 :=
    match dayMonSearch cs with
    | none => cs
    | some (dayCs, monCs) =>
      match monthsMap.lookup (String.mk ((monCs.map Char.toLower).take 3)) with
      | none => cs
      | some mnum =>
        let year := now.year
        let m : Int := (natOfDigs mnum.data : Nat)
        let d : Int := (natOfDigs dayCs : Nat)
        if validDate year m d then
          let year2 := if epochSecs ⟨year, m, d, 0⟩ < epochSecs now then year + 1 else year
          (isoOfParts year2 mnum dayCs).data
        else cs
  match strptimeFirst cs2 with
  | some dte => max 0 (tdDays (epochSecs ⟨dte.year, dte.month, dte.day, 0⟩) (epochSecs now))
  | none => 0

/-- BaseScraper.parse_easytenders_date: strip the Closing tag, run the
regex, infer the year; every failure after a nonempty input returns the
cleaned text unchanged, and only an empty input returns none. -/
def parse_easytenders_date (now : PyDateTime) (raw : String) : Option String :=
  if raw == "" then none
  else
    let clean := cleanDateCs raw
    match dayMonSearch clean with
    | none => some (String.mk clean)
    | some (dayCs, monCs) =>
      match monthsMap.lookup (String.mk ((monCs.map Char.toLower).take 3)) with
      | none => some (String.mk clean)
      | some mnum =>
        let year := now.year
        let m : Int := (natOfDigs mnum.data : Nat)
        let d : Int := (natOfDigs dayCs : Nat)
        if validDate year m d then
          let year2 := if epochSecs ⟨year, m, d, 0⟩ < epochSecs now then year + 1 else year
          some (isoOfParts year2 mnum dayCs)
        else some (String.mk clean)

/-- strftime of a parsed date with format percent-Y dash percent-m dash
percent-d; the years reaching this in the pipeline have four digits. -/
def strftimeISO (dte : CivilDate) : String :=
  toString dte.year ++ "-" ++ String.mk [digitChar (dte.month.toNat / 10), digitChar (dte.month.toNat % 10)]
    ++ "-" ++ String.mk [digitChar (dte.day.toNat / 10), digitChar (dte.day.toNat % 10)]

/-- GoogleSheetsManager._parse_date_flexible. The module never imports
re at module level, and the local import re statements of the other
methods do not reach this function, so the regex fallback line raises
NameError: the embedding returns an error exactly when every full
format fails on a nonempty cleaned input. -/
def parse_date_flexible (_now : PyDateTime) (date_str : String) : Except String (Option String) :=
  if date_str == "" then Except.ok none
  else
    let clean := cleanDateCs date_str
    match strptimeFirst clean with
    | some dte => Except.ok (some (strftimeISO dte))
    | none => Except.error "NameError: name re is not defined"

/-! ### The canonical Tender record and the sheet layer -/

/-- The tender dictionary built by the scrapers. Fields absent from a
particular scraper dictionary (status for EasyTenders and Transnet,
date_scraped outside eTenders) are filled with the same defaults
add_tenders would use, which yields the same persisted row; the
date_scraped column is supplied by the run as todayStr. -/
structure Tender where
  source : String
  tender_id : String
  title : String
  buyer : String
  category : String
  closing_date : String
  days_remaining : Int
  value_zar : Int
  description : String
  document_link : String
  status : String
  priority_buyer : Bool
deriving DecidableEq

/-- The prefix test re.match of four digits, dash, two digits, dash,
two digits used by validate_tender_data and auto_fix_tender. -/
def isoLikeStart (s : String) : Bool :=
  match s.data with
  | a :: b :: c :: d :: '-' :: e :: f :: '-' :: g :: h :: _ =>
    isDigitCh a && isDigitCh b && isDigitCh c && isDigitCh d &&
    isDigitCh e && isDigitCh f && isDigitCh g && isDigitCh h
  | _ => false

/-- GoogleSheetsManager.validate_tender_data. The days_remaining branch
coerces the value to int and cannot fail here because the field is
already an Int in this embedding, so the only possible error is the
date-format one. -/
def validate_tender_data (t : Tender) : List String :=
  if t.closing_date != "" && !(isoLikeStart t.closing_date) then
    ["Invalid date format: " ++ t.closing_date]
  else []

/-- GoogleSheetsManager.auto_fix_tender: re-parse a non-iso closing
date with the flexible parser, recompute days_remaining as
max 0 (closing minus now).days on success; a NameError escaping from
_parse_date_flexible propagates to the caller. The final int coercion
of days_remaining is the identity on an Int field. -/
def auto_fix_tender (now : PyDateTime) (t : Tender) : Except String Tender :=
  if t.closing_date != "" && !(isoLikeStart t.closing_date) then
    match parse_date_flexible now t.closing_date with
    | Except.error e => Except.error e
    | Except.ok none => Except.ok t
    | Except.ok (some parsed) =>
      let t1 := { t with closing_date := parsed }
      match strpISO parsed.data with
      | some dte =>
        Except.ok { t1 with
          days_remaining := max 0 (tdDays (epochSecs ⟨dte.year, dte.month, dte.day, 0⟩) (epochSecs now)) }
      | none => Except.ok t1
  else Except.ok t

/-- The row built for one tender inside add_tenders: validate, auto-fix
on validation errors, then the fourteen cells in sheet order. Integer
cells are rendered with str for the row model. -/
def tender_row (now : PyDateTime) (todayStr : String) (t : Tender) : Except String (List String) :=
  match (if (validate_tender_data t).isEmpty then Except.ok t else auto_fix_tender now t) with
  | Except.error e => Except.error e
  | Except.ok t2 =>
    Except.ok [todayStr, t2.source, t2.tender_id, t2.title, t2.buyer, t2.category,
      t2.closing_date, toString t2.days_remaining, toString t2.value_zar,
      pyTake 500 t2.description, t2.document_link, t2.status,
      (if t2.priority_buyer then "Yes" else "No"), "No"]

/-- GoogleSheetsManager.add_tenders: an empty batch returns success
without touching the sheet; otherwise build every row inside the try
block (an exception leaves the sheet unchanged and returns failure) and
append them in one batch whose external outcome is appendOk. -/
def add_tenders (now : PyDateTime) (todayStr : String) (appendOk : Bool)
    (sheet : List (List String)) (ts : List Tender) : Bool × List (List String) :=
  if ts.isEmpty then (true, sheet)
  else
    match ts.mapM (tender_row now todayStr) with
    | Except.error _ => (false, sheet)
    | Except.ok rows => if appendOk then (true, sheet ++ rows) else (false, sheet)

/-- GoogleSheetsManager.get_existing_tender_ids: any exception while
reading the worksheet (loadOk false) yields the empty set; otherwise
take the Tender_ID column, located by header name with fallback index
2, of every non-header row, skipping short rows and empty cells. -/
def get_existing_tender_ids (loadOk : Bool) (sheet : List (List String)) : List String :=
  if !loadOk then []
  else if sheet.length ≤ 1 then []
  else
    let headers := sheet.headD []
    let idIndex := (headers.findIdx? (fun h => h == "Tender_ID")).getD 2
    (sheet.drop 1).filterMap (fun row =>
      if idIndex < row.length ∧ row.getD idIndex "" ≠ "" then
        some (row.getD idIndex "")
      else none)

/-! ### The orchestrator -/

/-- Observable outcome of one TenderTracker.run call. newTenders is
all_new_tenders after the dedup check; acceptedCount and
discardedCount are the processed and discarded figures of the final
log line, len(filtered_tenders) and the difference. -/
structure RunResult where
  sheet : List (List String)
  alerts : List Tender
  newTenders : List Tender
  accepted : List Tender
  acceptedCount : Nat
  discardedCount : Nat
deriving DecidableEq

/-- TenderTracker.run. scraped holds each scraper outcome in order; a
raising scraper is logged and skipped. Candidates whose tender_id is
already present are dropped, the strict filter keeps only the insurance
category, persistence is one add_tenders batch, and send_alert runs for
every filtered tender only when that batch reported success. -/
def TenderTracker_run (now : PyDateTime) (todayStr : String) (loadOk appendOk : Bool)
    (sheet0 : List (List String)) (scraped : List (Except String (List Tender))) : RunResult :=
  let existing := get_existing_tender_ids loadOk sheet0
  let all_new := (scraped.filterMap Except.toOption).flatten.filter
    (fun t => !(existing.contains t.tender_id))
  let filtered := all_new.filter (fun t => t.category == "insurance")
  let pr := if filtered.isEmpty then (true, sheet0)
            else add_tenders now todayStr appendOk sheet0 filtered
  { sheet := pr.2
  , alerts := if !filtered.isEmpty && pr.1 then filtered else []
  , newTenders := all_new
  , accepted := filtered
  , acceptedCount := filtered.length
  , discardedCount := all_new.length - filtered.length }

/-! ### The EasyTenders adapter and the eTenders pre-filter -/

/-- One tender card of an EasyTenders search-results page, after the
DOM lookups: title, buyer, raw closing text and link. -/
structure EzCard where
  title : String
  buyer : String
  closingRaw : String
  link : String
deriving DecidableEq

/-- The tender_id built by EasyTendersScraper.scrape: EZ dash year dash
hash(title) modulo 10000, zero-padded to four digits. pyHash is the
string-hash function of the running interpreter process; CPython salts
it with a per-process random seed unless PYTHONHASHSEED is fixed, so
two runs generally disagree on it. -/
def easytenders_tender_id (pyHash : String → Int) (year : Int) (title : String) : String :=
  "EZ-" ++ toString year ++ "-" ++ String.mk (
    [digitChar ((Int.emod (pyHash title) 10000).toNat / 1000),
     digitChar ((Int.emod (pyHash title) 10000).toNat / 100 % 10),
     digitChar ((Int.emod (pyHash title) 10000).toNat / 10 % 10),
     digitChar ((Int.emod (pyHash title) 10000).toNat % 10)])

/-- The dictionary EasyTendersScraper.scrape builds from one card. -/
def ez_tender (pyHash : String → Int) (now : PyDateTime) (c : EzCard) : Tender :=
  let closing := String.mk (cleanDateCs c.closingRaw)
  { source := "EasyTenders"
  , tender_id := easytenders_tender_id pyHash now.year c.title
  , title := c.title
  , buyer := c.buyer
  , category := categorize_tender c.title ""
  , closing_date := closing
  , days_remaining := calculate_days_remaining now closing
  , value_zar := 0
  , description := c.title
  , document_link := if c.link.data.headD ' ' == '/' then "https://easytenders.co.za" ++ c.link else c.link
  , status := "New"
  , priority_buyer := is_priority_buyer c.buyer }

/-- EasyTendersScraper.scrape over a fixed snapshot: cards in the order
the keyword searches encounter them, de-duplicated within the run by
the lowered title-underscore-buyer key (first occurrence wins), with
empty-title cards skipped. -/
def easytenders_scrape (pyHash : String → Int) (now : PyDateTime)
    (cards : List EzCard) : List Tender :=
  (cards.foldl (fun (acc : List (String × Tender)) c =>
      if c.title == "" then acc
      else
        let key := pyLower (c.title ++ "_" ++ c.buyer)
        if acc.any (fun kv => kv.1 == key) then acc
        else acc ++ [(key, ez_tender pyHash now c)]) []).map Prod.snd

/-- The eTenders adapter keep condition, the negation of its continue
guard: keep when the derived category is insurance or the organ of
state matches a priority buyer. -/
def etenders_keep (category organOfState : String) : Bool :=
  category == "insurance" || is_priority_buyer organOfState

/-! ### Concrete fixtures used by the claim theorems -/

def probeNow : PyDateTime := ⟨2026, 1, 10, 0⟩

def headerSheet : List (List String) := [RAW_DATA_HEADERS]

/-- One EasyTenders listing, the same upstream snapshot for both runs. -/
def ezSnapshotCard : EzCard :=
  { title := "Insurance brokerage services"
  , buyer := "Acme Ltd"
  , closingRaw := "2026-03-18"
  , link := "/t/1" }

/-- A full pipeline run whose only candidate source is the EasyTenders
snapshot above, scraped by a process whose string hash is pyHash. -/
def ezRunWith (pyHash : String → Int) (sheet : List (List String)) : RunResult :=
  TenderTracker_run probeNow "2026-01-10" true true sheet
    [Except.ok (easytenders_scrape pyHash probeNow [ezSnapshotCard])]

/-- The string-hash function of the first interpreter process. -/
def hashSeedA : String → Int := fun _ => 1234

/-- The string-hash function of a second interpreter process with a
different hash salt. -/
def hashSeedB : String → Int := fun _ => 567

/-- An uncategorized tender from a priority buyer, as the eTenders
adapter would emit it. -/
def uncatPriorityTender : Tender :=
  { source := "eTenders.gov.za"
  , tender_id := "ET-777"
  , title := "Road maintenance services"
  , buyer := "National Treasury"
  , category := "uncategorized"
  , closing_date := "2026-03-18"
  , days_remaining := 67
  , value_zar := 0
  , description := "Road maintenance services"
  , document_link := "https://www.etenders.gov.za/Home/TenderDetails?id=777"
  , status := "New"
  , priority_buyer := true }

def uncatPriorityRun : RunResult :=
  TenderTracker_run probeNow "2026-01-10" true true headerSheet
    [Except.ok [uncatPriorityTender]]

/-- Two candidates of one run carrying the same external id T-100. -/
def dupTenderA : Tender :=
  { source := "eTenders.gov.za"
  , tender_id := "T-100"
  , title := "Insurance brokerage panel A"
  , buyer := "Buyer A"
  , category := "insurance"
  , closing_date := "2026-03-18"
  , days_remaining := 67
  , value_zar := 0
  , description := "Panel A"
  , document_link := ""
  , status := "New"
  , priority_buyer := false }

def dupTenderB : Tender :=
  { dupTenderA with title := "Insurance brokerage panel B", description := "Panel B" }

def dupRun : RunResult :=
  TenderTracker_run probeNow "2026-01-10" true true headerSheet
    [Except.ok [dupTenderA, dupTenderB]]

/-- Filtering with the constantly-true predicate keeps a list intact. -/
theorem filter_fun_true {α : Type} (l : List α) : l.filter (fun _ => true) = l := by
  induction l with
  | nil => rfl
  | cons a as ih => simp [List.filter, ih]

/-! ### Claim theorems -/

/-- Claim C1 (code bug in the source): deduplication is NOT idempotent
for EasyTenders listings, because the derived external id embeds the
per-process salted Python string hash. Against one fixed snapshot: the
first run accepts the listing; a second run in a process with the same
hash function accepts nothing new; but a second run in a process whose
hash differs on the title derives a fresh id, re-accepts the same
listing and re-alerts it, so the net new accepted count of the second
run is 1 instead of 0. -/
theorem c1_easytenders_hash_breaks_idempotence :
    (ezRunWith hashSeedA headerSheet).acceptedCount = 1
    ∧ (ezRunWith hashSeedA (ezRunWith hashSeedA headerSheet).sheet).acceptedCount = 0
    ∧ (ezRunWith hashSeedB (ezRunWith hashSeedA headerSheet).sheet).acceptedCount = 1
    ∧ (ezRunWith hashSeedB (ezRunWith hashSeedA headerSheet).sheet).alerts ≠ [] := by
  decide

/-- Claim C8 (code bug in the source): the keyword list contains D&O
and the text is lower-cased, so a title containing d&o in any casing
should match the insurance rule; but the keyword itself is never
lower-cased, the upper-case keyword cannot occur in a lower-cased text,
and the categorizer returns uncategorized on a title that contains the
keyword case-insensitively. -/
theorem c8_uppercase_keyword_never_matches :
    CATEGORIES.any (fun c => c.2.contains "D&O") = true
    ∧ pyContains (pyLower ("D&O cover" ++ " " ++ "")) "d&o" = true
    ∧ categorize_tender "D&O cover" "" = "uncategorized" := by
  decide

/-- Claim C9 (confirmed): when reading the persisted ids fails, the
loader returns the empty set, and a run with a failed load treats every
scraped candidate as new. -/
theorem c9_failed_load_treats_all_candidates_as_new :
    (∀ sheet, get_existing_tender_ids false sheet = [])
    ∧ ∀ now td appendOk sheet scraped,
        (TenderTracker_run now td false appendOk sheet scraped).newTenders
          = (scraped.filterMap Except.toOption).flatten := by
  constructor
  · intro sheet
    simp [get_existing_tender_ids]
  · intro now td ao sheet srs
    simp only [TenderTracker_run, get_existing_tender_ids, Bool.not_false, if_true,
      List.contains_nil]
    exact filter_fun_true _

/-- Membership in a conditional list that is empty in the negative
branch implies membership in the positive branch. -/
theorem mem_ite_nil {α : Type} {p : Prop} [inst : Decidable p] {l : List α} {x : α}
    (h : x ∈ if p then l else []) : x ∈ l := by
  split at h
  · exact h
  · exact absurd h (List.not_mem_nil x)

/-- The accepted list of a run, written out: dedup filter against the
loaded ids, then the strict insurance filter. -/
theorem run_accepted_def (now : PyDateTime) (td : String) (lo ao : Bool)
    (sheet : List (List String)) (srs : List (Except String (List Tender))) :
    (TenderTracker_run now td lo ao sheet srs).accepted
      = ((srs.filterMap Except.toOption).flatten.filter
          (fun t => !((get_existing_tender_ids lo sheet).contains t.tender_id))).filter
          (fun t => t.category == "insurance") := rfl

/-- The new-tender list of a run, written out. -/
theorem run_newTenders_def (now : PyDateTime) (td : String) (lo ao : Bool)
    (sheet : List (List String)) (srs : List (Except String (List Tender))) :
    (TenderTracker_run now td lo ao sheet srs).newTenders
      = (srs.filterMap Except.toOption).flatten.filter
          (fun t => !((get_existing_tender_ids lo sheet).contains t.tender_id)) := rfl

/-- The discard count of a run is the difference of the two lists. -/
theorem run_discard_def (now : PyDateTime) (td : String) (lo ao : Bool)
    (sheet : List (List String)) (srs : List (Except String (List Tender))) :
    (TenderTracker_run now td lo ao sheet srs).discardedCount
      = (TenderTracker_run now td lo ao sheet srs).newTenders.length
        - (TenderTracker_run now td lo ao sheet srs).accepted.length := rfl

/-- Every alerted tender of a run is an accepted tender of that run. -/
theorem mem_alerts_mem_accepted {now : PyDateTime} {td : String} {lo ao : Bool}
    {sheet : List (List String)} {srs : List (Except String (List Tender))} {t : Tender}
    (h : t ∈ (TenderTracker_run now td lo ao sheet srs).alerts) :
    t ∈ (TenderTracker_run now td lo ao sheet srs).accepted := by
  simp only [TenderTracker_run] at h ⊢
  exact mem_ite_nil h

/-- Every accepted tender of a run has the insurance category. -/
theorem accepted_category {now : PyDateTime} {td : String} {lo ao : Bool}
    {sheet : List (List String)} {srs : List (Except String (List Tender))} {t : Tender}
    (h : t ∈ (TenderTracker_run now td lo ao sheet srs).accepted) :
    t.category = "insurance" := by
  rw [run_accepted_def] at h
  exact eq_of_beq (List.mem_filter.mp h).2

/-- Claim C2 counterexample: an uncategorized tender whose buyer is on
the priority list passes the eTenders adapter pre-filter (the only
trace of the broad rule in the source), yet the orchestrator filter
discards it and no alert fires, so it is neither accepted nor alerted. -/
theorem c2_uncategorized_priority_discarded_unalerted :
    uncatPriorityTender.category = "uncategorized"
    ∧ uncatPriorityTender.priority_buyer = true
    ∧ is_priority_buyer uncatPriorityTender.buyer = true
    ∧ etenders_keep uncatPriorityTender.category uncatPriorityTender.buyer = true
    ∧ uncatPriorityRun.accepted = []
    ∧ uncatPriorityRun.alerts = []
    ∧ uncatPriorityRun.discardedCount = 1 := by
  decide

/-- Claim C2 amended: the broad accept-unless-uncategorized-and-not-
priority rule survives only as the eTenders adapter pre-filter, which
retains every priority-buyer tender; the orchestrator filter then keeps
only the insurance category, so an uncategorized tender is never among
the accepted or alerted tenders of a run, whatever its priority flag. -/
theorem c2_amended_strict_filter_overrides_broad_rule :
    (∀ category organ, is_priority_buyer organ = true → etenders_keep category organ = true)
    ∧ ∀ now td loadOk appendOk sheet scraped (t : Tender), t.category = "uncategorized" →
        t ∉ (TenderTracker_run now td loadOk appendOk sheet scraped).accepted
        ∧ t ∉ (TenderTracker_run now td loadOk appendOk sheet scraped).alerts := by
  constructor
  · intro category organ h
    simp [etenders_keep, h]
  · intro now td lo ao sheet srs t hcat
    have haccept : t ∉ (TenderTracker_run now td lo ao sheet srs).accepted := by
      intro hmem
      have := accepted_category hmem
      rw [hcat] at this
      exact absurd this (by decide)
    exact ⟨haccept, fun hmem => haccept (mem_alerts_mem_accepted hmem)⟩

/-- Witness for the amended C2 theorem at a concrete tender. -/
theorem c2_amended_strict_filter_overrides_broad_rule_witness :
    etenders_keep "uncategorized" "National Treasury" = true
    ∧ (uncatPriorityTender ∉ uncatPriorityRun.accepted
       ∧ uncatPriorityTender ∉ uncatPriorityRun.alerts) :=
  ⟨c2_amended_strict_filter_overrides_broad_rule.1 "uncategorized" "National Treasury" (by decide),
   c2_amended_strict_filter_overrides_broad_rule.2 probeNow "2026-01-10" true true headerSheet
     [Except.ok [uncatPriorityTender]] uncatPriorityTender (by decide)⟩

/-- Claim C3 counterexample: two distinct candidates of the SAME run
share external id T-100; both are accepted, both are persisted (the
sheet grows by two rows) and the discard count stays 0, instead of the
claimed one acceptance and one discard. -/
theorem c3_same_run_duplicates_both_accepted :
    dupTenderA.tender_id = "T-100"
    ∧ dupTenderB.tender_id = "T-100"
    ∧ dupTenderA ≠ dupTenderB
    ∧ dupRun.accepted = [dupTenderA, dupTenderB]
    ∧ dupRun.discardedCount = 0
    ∧ dupRun.sheet.length = 3 := by
  decide

/-- Claim C3 amended: duplicate suppression works only against the ids
loaded from the store at run start; two same-id candidates inside one
run are both accepted whenever that id is not yet persisted, and the
reported discard count, which counts policy-filtered tenders, does not
change. -/
theorem c3_amended_dedup_only_against_loaded_keys
    (now : PyDateTime) (td : String) (appendOk : Bool)
    (sheet : List (List String)) (t t2 : Tender)
    (hid : t2.tender_id = t.tender_id)
    (hnew : (get_existing_tender_ids true sheet).contains t.tender_id = false)
    (hc : t.category = "insurance") (hc2 : t2.category = "insurance") :
    (TenderTracker_run now td true appendOk sheet [Except.ok [t, t2]]).accepted = [t, t2]
    ∧ (TenderTracker_run now td true appendOk sheet [Except.ok [t, t2]]).discardedCount = 0 := by
  have h2 : (get_existing_tender_ids true sheet).contains t2.tender_id = false := by
    rw [hid]; exact hnew
  have hnewT : (TenderTracker_run now td true appendOk sheet [Except.ok [t, t2]]).newTenders
      = [t, t2] := by
    rw [run_newTenders_def]
    simp only [List.filterMap_cons, List.filterMap_nil, Except.toOption, List.flatten,
      List.append_nil, List.filter_cons, List.filter_nil, hnew, h2, Bool.not_false, if_true]
  have hacc : (TenderTracker_run now td true appendOk sheet [Except.ok [t, t2]]).accepted
      = [t, t2] := by
    rw [run_accepted_def]
    have hstep : ((([Except.ok [t, t2]] : List (Except String (List Tender))).filterMap
        Except.toOption).flatten.filter
          (fun x => !((get_existing_tender_ids true sheet).contains x.tender_id))) = [t, t2] := by
      rw [← run_newTenders_def now td true appendOk]
      exact hnewT
    rw [hstep]
    simp only [List.filter_cons, List.filter_nil, hc, hc2, beq_self_eq_true, if_true]
  refine ⟨hacc, ?_⟩
  rw [run_discard_def, hnewT, hacc, Nat.sub_self]

/-- Witness for the amended C3 theorem at the concrete duplicate pair. -/
theorem c3_amended_dedup_only_against_loaded_keys_witness :
    dupRun.accepted = [dupTenderA, dupTenderB] ∧ dupRun.discardedCount = 0 :=
  c3_amended_dedup_only_against_loaded_keys probeNow "2026-01-10" true headerSheet
    dupTenderA dupTenderB (by decide) (by decide) (by decide) (by decide)

/-- The alert list of a run, written out over its accepted list. -/
theorem run_alerts_def (now : PyDateTime) (td : String) (lo ao : Bool)
    (sheet : List (List String)) (srs : List (Except String (List Tender))) :
    (TenderTracker_run now td lo ao sheet srs).alerts
      = (if !(TenderTracker_run now td lo ao sheet srs).accepted.isEmpty
            && (if (TenderTracker_run now td lo ao sheet srs).accepted.isEmpty
                then (true, sheet)
                else add_tenders now td ao sheet
                  (TenderTracker_run now td lo ao sheet srs).accepted).1
         then (TenderTracker_run now td lo ao sheet srs).accepted else []) := rfl

/-- The sheet state after a run, written out over its accepted list. -/
theorem run_sheet_def (now : PyDateTime) (td : String) (lo ao : Bool)
    (sheet : List (List String)) (srs : List (Except String (List Tender))) :
    (TenderTracker_run now td lo ao sheet srs).sheet
      = (if (TenderTracker_run now td lo ao sheet srs).accepted.isEmpty
         then (true, sheet)
         else add_tenders now td ao sheet
           (TenderTracker_run now td lo ao sheet srs).accepted).2 := rfl

/-- Claim C6 (confirmed): alerting is gated on persistence. If the
batch append fails, no alert fires, the sheet is unchanged, and hence
the dedup key set the next run will load is unchanged; and whenever any
alert fires, the whole batch of accepted tenders was built and appended
to the sheet first, and exactly the accepted tenders are alerted. -/
theorem c6_alerts_only_after_successful_persist
    (now : PyDateTime) (td : String) (loadOk appendOk : Bool)
    (sheet : List (List String)) (scraped : List (Except String (List Tender))) :
    (appendOk = false →
       (TenderTracker_run now td loadOk appendOk sheet scraped).alerts = []
       ∧ (TenderTracker_run now td loadOk appendOk sheet scraped).sheet = sheet
       ∧ get_existing_tender_ids true (TenderTracker_run now td loadOk appendOk sheet scraped).sheet
           = get_existing_tender_ids true sheet)
    ∧ ((TenderTracker_run now td loadOk appendOk sheet scraped).alerts ≠ [] →
       ∃ rows,
         (TenderTracker_run now td loadOk appendOk sheet scraped).accepted.mapM
             (tender_row now td) = Except.ok rows
         ∧ (TenderTracker_run now td loadOk appendOk sheet scraped).sheet = sheet ++ rows
         ∧ (TenderTracker_run now td loadOk appendOk sheet scraped).alerts
             = (TenderTracker_run now td loadOk appendOk sheet scraped).accepted) := by
  rw [run_alerts_def, run_sheet_def]
  generalize (TenderTracker_run now td loadOk appendOk sheet scraped).accepted = F
  by_cases hE : F.isEmpty
  · simp [hE]
  · rw [Bool.not_eq_true] at hE
    simp only [hE, Bool.false_eq_true, if_false, Bool.not_false, Bool.true_and]
    unfold add_tenders
    simp only [hE, Bool.false_eq_true, if_false]
    cases hm : F.mapM (tender_row now td) with
    | error e =>
      simp [hm]
    | ok rows =>
      cases appendOk with
      | false => simp [hm]
      | true =>
        simp only [hm, if_true]
        exact ⟨fun h => absurd h (by decide), fun _ => ⟨rows, rfl, rfl, trivial⟩⟩

/-- Witness for the C6 theorem: a failed append on a concrete run
leaves no alerts and an unchanged sheet. -/
theorem c6_alerts_only_after_successful_persist_witness :
    (false : Bool) = false
    ∧ ((TenderTracker_run probeNow "2026-01-10" true false headerSheet
          [Except.ok [dupTenderA]]).alerts = []
       ∧ (TenderTracker_run probeNow "2026-01-10" true false headerSheet
            [Except.ok [dupTenderA]]).sheet = headerSheet
       ∧ get_existing_tender_ids true (TenderTracker_run probeNow "2026-01-10" true false headerSheet
            [Except.ok [dupTenderA]]).sheet = get_existing_tender_ids true headerSheet) :=
  ⟨rfl, (c6_alerts_only_after_successful_persist probeNow "2026-01-10" true false headerSheet
    [Except.ok [dupTenderA]]).1 rfl⟩

/-- Claim C7 (confirmed): the days-remaining value of the pipeline is
never negative: calculate_days_remaining clamps every parsed date with
max 0 and defaults to 0 on unparsable input, and the pre-commit
auto-fix either keeps the already non-negative value or recomputes a
clamped one. -/
theorem c7_days_remaining_never_negative :
    (∀ now s, 0 ≤ calculate_days_remaining now s)
    ∧ ∀ now (t t2 : Tender), auto_fix_tender now t = Except.ok t2 →
        0 ≤ t.days_remaining → 0 ≤ t2.days_remaining := by
  constructor
  · intro now s
    simp only [calculate_days_remaining]
    split
    · exact le_max_left 0 _
    · exact le_refl 0
  · intro now t t2 h hnn
    unfold auto_fix_tender at h
    split at h
    · split at h
      · exact absurd h (by simp)
      · cases h; exact hnn
      · split at h
        · cases h; exact le_max_left 0 _
        · cases h; exact hnn
    · cases h; exact hnn

/-- Witness for the C7 theorem at concrete inputs. -/
theorem c7_days_remaining_never_negative_witness :
    0 ≤ calculate_days_remaining probeNow "10 March 2020"
    ∧ 0 ≤ dupTenderA.days_remaining :=
  ⟨c7_days_remaining_never_negative.1 probeNow "10 March 2020",
   c7_days_remaining_never_negative.2 probeNow dupTenderA dupTenderA (by decide) (by decide)⟩

/-- auto_fix_tender touches only closing_date and days_remaining. -/
theorem auto_fix_preserves (now : PyDateTime) (t t2 : Tender)
    (h : auto_fix_tender now t = Except.ok t2) :
    t2.source = t.source ∧ t2.tender_id = t.tender_id ∧ t2.title = t.title
    ∧ t2.buyer = t.buyer ∧ t2.category = t.category ∧ t2.value_zar = t.value_zar
    ∧ t2.description = t.description ∧ t2.document_link = t.document_link
    ∧ t2.status = t.status ∧ t2.priority_buyer = t.priority_buyer := by
  unfold auto_fix_tender at h
  split at h
  · split at h
    · exact absurd h (by simp)
    · cases h
      exact ⟨rfl, rfl, rfl, rfl, rfl, rfl, rfl, rfl, rfl, rfl⟩
    · split at h
      · cases h
        exact ⟨rfl, rfl, rfl, rfl, rfl, rfl, rfl, rfl, rfl, rfl⟩
      · cases h
        exact ⟨rfl, rfl, rfl, rfl, rfl, rfl, rfl, rfl, rfl, rfl⟩
  · cases h
    exact ⟨rfl, rfl, rfl, rfl, rfl, rfl, rfl, rfl, rfl, rfl⟩

/-- Claim C10 (confirmed): every persisted row truncates the record
description to its first 500 characters, and writes the other fields
unmodified: the identity, text and link cells equal the record fields,
and the date and days cells equal the record fields whenever
validation passes (otherwise they carry the documented auto-fix). -/
theorem c10_description_truncated_to_500 (now : PyDateTime) (td : String)
    (t : Tender) (row : List String)
    (h : tender_row now td t = Except.ok row) :
    row.getD 9 "" = pyTake 500 t.description
    ∧ row.getD 0 "" = td
    ∧ row.getD 1 "" = t.source ∧ row.getD 2 "" = t.tender_id ∧ row.getD 3 "" = t.title
    ∧ row.getD 4 "" = t.buyer ∧ row.getD 5 "" = t.category
    ∧ row.getD 8 "" = toString t.value_zar ∧ row.getD 10 "" = t.document_link
    ∧ row.getD 11 "" = t.status
    ∧ (validate_tender_data t = [] →
        row.getD 6 "" = t.closing_date ∧ row.getD 7 "" = toString t.days_remaining) := by
  unfold tender_row at h
  by_cases hv : (validate_tender_data t).isEmpty
  · rw [if_pos hv] at h
    cases h
    exact ⟨rfl, rfl, rfl, rfl, rfl, rfl, rfl, rfl, rfl, rfl, fun _ => ⟨rfl, rfl⟩⟩
  · rw [if_neg hv] at h
    cases haf : auto_fix_tender now t with
    | error e => rw [haf] at h; exact absurd h (by simp)
    | ok t2 =>
      rw [haf] at h
      cases h
      obtain ⟨h1, h2, h3, h4, h5, h6, h7, h8, h9, _⟩ := auto_fix_preserves now t t2 haf
      refine ⟨?_, rfl, ?_, ?_, ?_, ?_, ?_, ?_, ?_, ?_, ?_⟩
      · simp [h7]
      · simp [h1]
      · simp [h2]
      · simp [h3]
      · simp [h4]
      · simp [h5]
      · simp [h6]
      · simp [h8]
      · simp [h9]
      · intro hval
        rw [hval] at hv
        exact absurd rfl hv

/-- A committed tender with a 501-character description. -/
def longDescTender : Tender :=
  { dupTenderA with description := String.mk (List.replicate 501 'a') }

/-- The row tender_row builds for it: the description cell keeps only
500 characters. -/
def longDescRow : List String :=
  ["2026-01-10", "eTenders.gov.za", "T-100", "Insurance brokerage panel A",
   "Buyer A", "insurance", "2026-03-18", "67", "0",
   String.mk (List.replicate 500 'a'), "", "New", "No", "No"]

set_option maxRecDepth 4000 in
/-- Witness for the C10 theorem at the concrete long-description
tender. -/
theorem c10_description_truncated_to_500_witness :
    tender_row probeNow "2026-01-10" longDescTender = Except.ok longDescRow
    ∧ longDescRow.getD 9 "" = pyTake 500 longDescTender.description :=
  ⟨by decide,
   (c10_description_truncated_to_500 probeNow "2026-01-10" longDescTender longDescRow
     (by decide)).1⟩

/-- Claim C5 counterexample: evaluated at noon of the reference date
2026-01-10 (the scrape runs at some time of day, and the source
subtracts the full datetime.now from the parsed midnight date), the
input 18 Mar normalizes to closing date 2026-03-18 but days_remaining
is 66, not the claimed 67; the floor of timedelta.days loses the part
day. -/
theorem c5_noon_reference_gives_66 :
    parse_easytenders_date ⟨2026, 1, 10, 43200⟩ "18 Mar" = some "2026-03-18"
    ∧ calculate_days_remaining ⟨2026, 1, 10, 43200⟩ "18 Mar" = 66
    ∧ (66 : Int) ≠ 67 := by
  decide

/-- Claim C5 amended: for every instant of 2026-01-10, the input
18 Mar normalizes to closing date 2026-03-18; days_remaining is 67
exactly at midnight and 66 at any later instant of that date; and for
every instant of 2026-04-01 (the date already passed that year) the
inferred year rolls over and the result is 2027-03-18. -/
theorem c5_amended_year_inference (s : Int) (h0 : 0 ≤ s) (h86 : s < 86400) :
    parse_easytenders_date ⟨2026, 1, 10, s⟩ "18 Mar" = some "2026-03-18"
    ∧ calculate_days_remaining ⟨2026, 1, 10, s⟩ "18 Mar" = (if s = 0 then 67 else 66)
    ∧ parse_easytenders_date ⟨2026, 4, 1, s⟩ "18 Mar" = some "2027-03-18" := by
  have hbridgeP : parse_easytenders_date ⟨2026, 1, 10, s⟩ "18 Mar"
      = some (isoOfParts (if epochSecs ⟨2026, 3, 18, 0⟩ < epochSecs ⟨2026, 1, 10, s⟩
                          then 2027 else 2026) "03" ['1','8']) := rfl
  have hbridgeC : calculate_days_remaining ⟨2026, 1, 10, s⟩ "18 Mar"
      = (match strptimeFirst (isoOfParts (if epochSecs ⟨2026, 3, 18, 0⟩ < epochSecs ⟨2026, 1, 10, s⟩
                                          then 2027 else 2026) "03" ['1','8']).data with
         | some dte => max 0 (tdDays (epochSecs ⟨dte.year, dte.month, dte.day, 0⟩)
                                (epochSecs ⟨2026, 1, 10, s⟩))
         | none => 0) := rfl
  have hbridgeP2 : parse_easytenders_date ⟨2026, 4, 1, s⟩ "18 Mar"
      = some (isoOfParts (if epochSecs ⟨2026, 3, 18, 0⟩ < epochSecs ⟨2026, 4, 1, s⟩
                          then 2027 else 2026) "03" ['1','8']) := rfl
  have e : daysFromCivil 2026 3 18 = daysFromCivil 2026 1 10 + 67 := by decide
  have e2 : daysFromCivil 2026 3 18 = daysFromCivil 2026 4 1 - 14 := by decide
  have hn1 : ¬ (epochSecs ⟨2026, 3, 18, 0⟩ < epochSecs ⟨2026, 1, 10, s⟩) := by
    simp only [epochSecs]
    rw [e]
    omega
  have hp2 : epochSecs ⟨2026, 3, 18, 0⟩ < epochSecs ⟨2026, 4, 1, s⟩ := by
    simp only [epochSecs]
    rw [e2]
    omega
  refine ⟨?_, ?_, ?_⟩
  · rw [hbridgeP, if_neg hn1]
    decide
  · rw [hbridgeC, if_neg hn1]
    rw [show strptimeFirst (isoOfParts 2026 "03" ['1','8']).data
          = some ⟨2026, 3, 18⟩ from by decide]
    change max 0 (tdDays (epochSecs ⟨2026, 3, 18, 0⟩) (epochSecs ⟨2026, 1, 10, s⟩)) = _
    have htd : tdDays (epochSecs ⟨2026, 3, 18, 0⟩) (epochSecs ⟨2026, 1, 10, s⟩)
        = (if s = 0 then 67 else 66) := by
      simp only [tdDays, epochSecs]
      rw [e, Int.fdiv_eq_ediv _ (by decide)]
      split
      · omega
      · omega
    rw [htd]
    split
    · decide
    · decide
  · rw [hbridgeP2, if_pos hp2]
    decide

/-- Witness for the amended C5 theorem one hour after midnight. -/
theorem c5_amended_year_inference_witness :
    (0 : Int) ≤ 3600 ∧ (3600 : Int) < 86400
    ∧ (parse_easytenders_date ⟨2026, 1, 10, 3600⟩ "18 Mar" = some "2026-03-18"
       ∧ calculate_days_remaining ⟨2026, 1, 10, 3600⟩ "18 Mar" = (if (3600 : Int) = 0 then 67 else 66)
       ∧ parse_easytenders_date ⟨2026, 4, 1, 3600⟩ "18 Mar" = some "2027-03-18") :=
  ⟨by decide, by decide, c5_amended_year_inference 3600 (by decide) (by decide)⟩

/-! ### Canonical renderings of the five supported formats.
These definitions express, for the round-trip statements, the string a
date wears in each format; they follow strftime conventions
(zero-padded day, month and four-digit year, capitalized month names). -/

/-- Two-digit zero-padded rendering of a value below 100. -/
def digit2Cs (n : Nat) : List Char :=
  [digitChar (n / 10), digitChar (n % 10)]

/-- Four-digit zero-padded rendering of a value below 10000. -/
def year4Cs (y : Nat) : List Char :=
  [digitChar (y / 1000), digitChar (y / 100 % 10), digitChar (y / 10 % 10), digitChar (y % 10)]

def fmtISO (y m d : Nat) : String :=
  String.mk (year4Cs y ++ ('-' :: (digit2Cs m ++ ('-' :: digit2Cs d))))

def fmtSlashDMY (d m y : Nat) : String :=
  String.mk (digit2Cs d ++ ('/' :: (digit2Cs m ++ ('/' :: year4Cs y))))

def fmtDashDMY (d m y : Nat) : String :=
  String.mk (digit2Cs d ++ ('-' :: (digit2Cs m ++ ('-' :: year4Cs y))))

def monthNameCap : Nat → String
  | 1 => "January" | 2 => "February" | 3 => "March" | 4 => "April"
  | 5 => "May" | 6 => "June" | 7 => "July" | 8 => "August"
  | 9 => "September" | 10 => "October" | 11 => "November" | 12 => "December"
  | _ => ""

def monthAbbrCap : Nat → String
  | 1 => "Jan" | 2 => "Feb" | 3 => "Mar" | 4 => "Apr"
  | 5 => "May" | 6 => "Jun" | 7 => "Jul" | 8 => "Aug"
  | 9 => "Sep" | 10 => "Oct" | 11 => "Nov" | 12 => "Dec"
  | _ => ""

def fmtDayMonthFullY (d m y : Nat) : String :=
  String.mk (digit2Cs d ++ ' ' :: ((monthNameCap m).data ++ ' ' :: year4Cs y))

def fmtDayMonAbbrY (d m y : Nat) : String :=
  String.mk (digit2Cs d ++ ' ' :: ((monthAbbrCap m).data ++ ' ' :: year4Cs y))

/-! ### Digit-character facts -/

theorem digitChar_isDigit {k : Nat} (h : k ≤ 9) : isDigitCh (digitChar k) = true := by
  interval_cases k <;> decide

theorem digitVal_digitChar {k : Nat} (h : k ≤ 9) : digitVal (digitChar k) = k := by
  interval_cases k <;> decide

theorem digitChar_not_ws {k : Nat} (h : k ≤ 9) : isWsCh (digitChar k) = false := by
  interval_cases k <;> decide

theorem digitChar_ne_C {k : Nat} (h : k ≤ 9) : digitChar k ≠ 'C' := by
  interval_cases k <;> decide

/-- A digit character is never beq-equal to a non-digit character. -/
theorem digit_beq_nondigit {a c : Char} (ha : isDigitCh a = true) (hc : isDigitCh c = false) :
    (a == c) = false := by
  cases h : (a == c) with
  | false => rfl
  | true =>
    rw [eq_of_beq h] at ha
    rw [ha] at hc
    exact absurd hc (by decide)

/-- The two-digit alternation pattern of percent-d accepts every
zero-padded day between 1 and 31. -/
theorem dayPat_of_day {d : Nat} (h1 : 1 ≤ d) (h31 : d ≤ 31) :
    dayPat (d / 10) (d % 10) = true := by
  simp only [dayPat, Bool.or_eq_true, Bool.and_eq_true, beq_iff_eq, bne_iff_ne, ne_eq]
  omega

/-- The two-digit alternation pattern of percent-m accepts every
zero-padded month between 1 and 12. -/
theorem monPat_of_month {m : Nat} (h1 : 1 ≤ m) (h12 : m ≤ 12) :
    monPat (m / 10) (m % 10) = true := by
  simp only [monPat, Bool.or_eq_true, Bool.and_eq_true, beq_iff_eq, bne_iff_ne, ne_eq]
  omega

/-! ### Parser-combinator lemmas -/

/-- percent-d consumes a zero-padded day and continues. -/
theorem parseDay2_some {α : Type} (k : Nat → List Char → Option α) (d : Nat) (r : List Char)
    {v : α} (h1 : 1 ≤ d) (h31 : d ≤ 31) (hk : k d r = some v) :
    parseDay2 k (digit2Cs d ++ r) = some v := by
  have hd10 : d / 10 ≤ 9 := by omega
  have hd1 : d % 10 ≤ 9 := by omega
  simp only [digit2Cs, List.cons_append, List.nil_append, parseDay2,
    digitChar_isDigit hd10, digitChar_isDigit hd1,
    digitVal_digitChar hd10, digitVal_digitChar hd1,
    dayPat_of_day h1 h31, Bool.and_self, Bool.and_true, Bool.true_and, if_true]
  rw [show 10 * (d / 10) + d % 10 = d from by omega, hk]

/-- percent-d fails when both the two-digit reading and the one-digit
backtrack reading make the continuation fail. -/
theorem parseDay2_none {α : Type} (k : Nat → List Char → Option α) (d : Nat) (r : List Char)
    (h1 : 1 ≤ d) (h31 : d ≤ 31) (hk2 : k d r = none)
    (hk1 : k (d / 10) (digitChar (d % 10) :: r) = none) :
    parseDay2 k (digit2Cs d ++ r) = none := by
  have hd10 : d / 10 ≤ 9 := by omega
  have hd1 : d % 10 ≤ 9 := by omega
  simp only [digit2Cs, List.cons_append, List.nil_append, parseDay2,
    digitChar_isDigit hd10, digitChar_isDigit hd1,
    digitVal_digitChar hd10, digitVal_digitChar hd1,
    dayPat_of_day h1 h31, Bool.and_self, Bool.and_true, Bool.true_and, if_true]
  rw [show 10 * (d / 10) + d % 10 = d from by omega, hk2]
  by_cases h0 : d / 10 = 0
  · simp [h0]
  · simp [h0, hk1]

/-- percent-m consumes a zero-padded month and continues. -/
theorem parseMon2_some {α : Type} (k : Nat → List Char → Option α) (m : Nat) (r : List Char)
    {v : α} (h1 : 1 ≤ m) (h12 : m ≤ 12) (hk : k m r = some v) :
    parseMon2 k (digit2Cs m ++ r) = some v := by
  have hm10 : m / 10 ≤ 9 := by omega
  have hm1 : m % 10 ≤ 9 := by omega
  simp only [digit2Cs, List.cons_append, List.nil_append, parseMon2,
    digitChar_isDigit hm10, digitChar_isDigit hm1,
    digitVal_digitChar hm10, digitVal_digitChar hm1,
    monPat_of_month h1 h12, Bool.and_self, Bool.and_true, Bool.true_and, if_true]
  rw [show 10 * (m / 10) + m % 10 = m from by omega, hk]

/-- percent-Y consumes exactly four digits and continues. -/
theorem parseYear4_eq {α : Type} (k : Nat → List Char → Option α) (y : Nat) (r : List Char)
    (h : y ≤ 9999) : parseYear4 k (year4Cs y ++ r) = k y r := by
  have a1 : y / 1000 ≤ 9 := by omega
  have a2 : y / 100 % 10 ≤ 9 := by omega
  have a3 : y / 10 % 10 ≤ 9 := by omega
  have a4 : y % 10 ≤ 9 := by omega
  simp only [year4Cs, List.cons_append, List.nil_append, parseYear4,
    digitChar_isDigit a1, digitChar_isDigit a2, digitChar_isDigit a3, digitChar_isDigit a4,
    digitVal_digitChar a1, digitVal_digitChar a2, digitVal_digitChar a3, digitVal_digitChar a4,
    Bool.and_self, Bool.and_true, Bool.true_and, if_true]
  rw [show 1000 * (y / 1000) + 100 * (y / 100 % 10) + 10 * (y / 10 % 10) + y % 10 = y from by omega]

/-- percent-Y fails when the third character is not a digit. -/
theorem parseYear4_none_third {α : Type} (k : Nat → List Char → Option α)
    (c1 c2 c3 c4 : Char) (rest : List Char) (h : isDigitCh c3 = false) :
    parseYear4 k (c1 :: c2 :: c3 :: c4 :: rest) = none := by
  simp [parseYear4, h]

/-- A matching literal is consumed. -/
theorem litThen_eq {α : Type} (lit : Char) (k : List Char → Option α) (r : List Char) :
    litThen lit k (lit :: r) = k r := by
  simp [litThen]

/-- A mismatching literal fails. -/
theorem litThen_ne {α : Type} (lit : Char) (k : List Char → Option α) (c : Char)
    (r : List Char) (h : (c == lit) = false) :
    litThen lit k (c :: r) = none := by
  simp [litThen, h]

/-- A single space consumes the whitespace run when the next character
is not whitespace. -/
theorem parseWs1_single {α : Type} (k : List Char → Option α) (c : Char) (r : List Char)
    (h : isWsCh c = false) : parseWs1 k (' ' :: c :: r) = k (c :: r) := by
  simp [parseWs1, List.dropWhile_cons, h, show isWsCh ' ' = true from by decide]

/-- The shared finishing step succeeds on exhausted valid input. -/
theorem finishDate_nil {y m d : Nat} (hv : validDate (y : Int) (m : Int) (d : Int) = true) :
    finishDate y m d [] = some ⟨(y : Int), (m : Int), (d : Int)⟩ := by
  simp [finishDate, hv]

/-- Bounds extracted from datetime validity. -/
theorem validDate_nat_bounds {y m d : Nat}
    (hv : validDate (y : Int) (m : Int) (d : Int) = true) :
    1 ≤ m ∧ m ≤ 12 ∧ 1 ≤ d ∧ d ≤ 31 ∧ y ≤ 9999 := by
  have h := of_decide_eq_true hv
  obtain ⟨h1, h2, h3, h4, h5, h6⟩ := h
  have hdm : daysInMonth (y : Int) (m : Int) ≤ 31 := by
    unfold daysInMonth
    split
    · split <;> decide
    · split <;> decide
  omega

theorem isPrefixOf_self_append (l r : List Char) : l.isPrefixOf (l ++ r) = true := by
  induction l with
  | nil => simp [List.isPrefixOf]
  | cons a as ih => simp [List.isPrefixOf, ih]

/-- percent-B consumes the rendered month name (monthFullTable holds no
name that is a prefix of another, so the alternation is unambiguous). -/
theorem parseNameFull_eq {α : Type} (k : Nat → List Char → Option α) (m : Nat) (r : List Char)
    (h1 : 1 ≤ m) (h12 : m ≤ 12) :
    parseNameFrom monthFullTable k ((monthNameCap m).data ++ r) = k m r := by
  interval_cases m <;>
  · simp only [monthNameCap, parseNameFrom, monthFullTable, List.findSome?, List.map_append]
    simp [List.isPrefixOf, isPrefixOf_self_append, List.drop_append_of_le_length]
    cases hk : k _ r <;> simp [hk]

/-- percent-b consumes the rendered month abbreviation. -/
theorem parseNameAbbr_eq {α : Type} (k : Nat → List Char → Option α) (m : Nat) (r : List Char)
    (h1 : 1 ≤ m) (h12 : m ≤ 12) :
    parseNameFrom monthAbbrTable k ((monthAbbrCap m).data ++ r) = k m r := by
  interval_cases m <;>
  · simp only [monthAbbrCap, parseNameFrom, monthAbbrTable, List.findSome?, List.map_append]
    simp [List.isPrefixOf, isPrefixOf_self_append, List.drop_append_of_le_length]
    cases hk : k _ r <;> simp [hk]

/-- No full month name matches an abbreviation followed by a space,
except for May whose full name and abbreviation coincide. -/
theorem parseNameFull_abbr_none {α : Type} (k : Nat → List Char → Option α) (m : Nat)
    (rest : List Char) (h1 : 1 ≤ m) (h12 : m ≤ 12) (h5 : m ≠ 5) :
    parseNameFrom monthFullTable k ((monthAbbrCap m).data ++ ' ' :: rest) = none := by
  interval_cases m <;>
    first
    | exact absurd rfl h5
    | simp [monthAbbrCap, parseNameFrom, monthFullTable, List.findSome?, List.map_append,
        List.isPrefixOf]

/-- percent-Y also fails on a non-digit third character when the tail
shape is unknown. -/
theorem parseYear4_none3 {α : Type} (k : Nat → List Char → Option α)
    (c1 c2 c3 : Char) (X : List Char) (h : isDigitCh c3 = false) :
    parseYear4 k (c1 :: c2 :: c3 :: X) = none := by
  cases X with
  | nil => simp [parseYear4]
  | cons c4 rest => exact parseYear4_none_third k c1 c2 c3 c4 rest h

theorem wsThenLetters_none (r : List Char)
    (h : ∀ c, r.head? = some c → isWsCh c = false) : wsThenLetters r = none := by
  cases r with
  | nil => rfl
  | cons c rest => simp [wsThenLetters, h c rfl]

theorem dayMonAt_none (c1 : Char) (rest : List Char)
    (h : ∀ c ∈ rest, isWsCh c = false) : dayMonAt c1 rest = none := by
  cases rest with
  | nil => rfl
  | cons c2 rest2 =>
    have h2 : wsThenLetters (c2 :: rest2) = none :=
      wsThenLetters_none _ (fun c hc => by
        cases hc; exact h c2 (List.mem_cons_self c2 rest2))
    have h3 : wsThenLetters rest2 = none :=
      wsThenLetters_none _ (fun c hc => by
        exact h c (List.mem_cons_of_mem c2 (List.mem_of_mem_head? hc)))
    simp only [dayMonAt, h2, h3]
    split <;> rfl

/-- The regex search finds nothing in a string without whitespace. -/
theorem dayMonSearch_none (cs : List Char)
    (h : ∀ c ∈ cs, isWsCh c = false) : dayMonSearch cs = none := by
  induction cs with
  | nil => rfl
  | cons c1 rest ih =>
    have hrest : ∀ c ∈ rest, isWsCh c = false :=
      fun c hc => h c (List.mem_cons_of_mem c1 hc)
    unfold dayMonSearch
    rw [dayMonAt_none c1 rest hrest]
    simp only [ite_self]
    exact ih hrest

theorem dropWhile_eq_self_of_head {p : Char → Bool} {cs : List Char}
    (h : ∀ c, cs.head? = some c → p c = false) : cs.dropWhile p = cs := by
  cases cs with
  | nil => rfl
  | cons a l => simp [List.dropWhile_cons, h a rfl]

/-- str.strip is the identity when neither end is whitespace. -/
theorem pyStrip_noop (cs : List Char)
    (h1 : ∀ c, cs.head? = some c → isWsCh c = false)
    (h2 : ∀ c, cs.reverse.head? = some c → isWsCh c = false) : pyStripCs cs = cs := by
  unfold pyStripCs
  rw [dropWhile_eq_self_of_head h1, dropWhile_eq_self_of_head h2, List.reverse_reverse]

/-- str.strip is the identity on whitespace-free data. -/
theorem pyStrip_noop_of_noWs (cs : List Char)
    (h : ∀ c ∈ cs, isWsCh c = false) : pyStripCs cs = cs := by
  apply pyStrip_noop
  · exact fun c hc => h c (List.mem_of_mem_head? hc)
  · exact fun c hc => h c (List.mem_reverse.mp (List.mem_of_mem_head? hc))

/-- Removing the Closing tag is the identity on data without a capital
C. -/
theorem removeClosingTag_noC : ∀ (cs : List Char), (∀ c ∈ cs, c ≠ 'C') →
    removeClosingTag cs = cs := by
  intro cs
  induction cs with
  | nil => intro _; rfl
  | cons c rest ih =>
    intro h
    have hc : c ≠ 'C' := h c (List.mem_cons_self c rest)
    have hrest : ∀ x ∈ rest, x ≠ 'C' := fun x hx => h x (List.mem_cons_of_mem c hx)
    rw [removeClosingTag.eq_def]
    split
    · simp_all
    · rename_i c2 rest2 heq
      injection heq with he1 he2
      subst he1
      subst he2
      rw [ih hrest]
    · rename_i x heq
      exact absurd heq (by simp)

theorem beq_empty_false {s : String} (h : s.data ≠ []) : (s == "") = false := by
  cases hb : (s == "") with
  | false => rfl
  | true => exact absurd (congrArg String.data (eq_of_beq hb)) h

/-! ### Round-trip and cross-format behaviour of the five formats -/

theorem strpISO_fmt (y m d : Nat)
    (hv : validDate (y : Int) (m : Int) (d : Int) = true) :
    strpISO (fmtISO y m d).data = some ⟨(y : Int), (m : Int), (d : Int)⟩ := by
  obtain ⟨hm1, hm12, hd1, hd31, hy⟩ := validDate_nat_bounds hv
  unfold strpISO fmtISO
  rw [show (String.mk (year4Cs y ++ ('-' :: (digit2Cs m ++ ('-' :: digit2Cs d))))).data
        = year4Cs y ++ ('-' :: (digit2Cs m ++ ('-' :: digit2Cs d))) from rfl]
  rw [parseYear4_eq _ _ _ hy, litThen_eq]
  apply parseMon2_some _ _ _ hm1 hm12
  rw [litThen_eq]
  rw [show digit2Cs d = digit2Cs d ++ [] from (List.append_nil _).symm]
  exact parseDay2_some _ _ _ hd1 hd31 (finishDate_nil hv)

theorem strpSlash_fmt (y m d : Nat)
    (hv : validDate (y : Int) (m : Int) (d : Int) = true) :
    strpSlash (fmtSlashDMY d m y).data = some ⟨(y : Int), (m : Int), (d : Int)⟩ := by
  obtain ⟨hm1, hm12, hd1, hd31, hy⟩ := validDate_nat_bounds hv
  unfold strpSlash fmtSlashDMY
  rw [show (String.mk (digit2Cs d ++ ('/' :: (digit2Cs m ++ ('/' :: year4Cs y))))).data
        = digit2Cs d ++ ('/' :: (digit2Cs m ++ ('/' :: year4Cs y))) from rfl]
  apply parseDay2_some _ _ _ hd1 hd31
  rw [litThen_eq]
  apply parseMon2_some _ _ _ hm1 hm12
  rw [litThen_eq]
  rw [show year4Cs y = year4Cs y ++ [] from (List.append_nil _).symm]
  rw [parseYear4_eq _ _ _ hy]
  exact finishDate_nil hv

theorem strpDash_fmt (y m d : Nat)
    (hv : validDate (y : Int) (m : Int) (d : Int) = true) :
    strpDash (fmtDashDMY d m y).data = some ⟨(y : Int), (m : Int), (d : Int)⟩ := by
  obtain ⟨hm1, hm12, hd1, hd31, hy⟩ := validDate_nat_bounds hv
  unfold strpDash fmtDashDMY
  rw [show (String.mk (digit2Cs d ++ ('-' :: (digit2Cs m ++ ('-' :: year4Cs y))))).data
        = digit2Cs d ++ ('-' :: (digit2Cs m ++ ('-' :: year4Cs y))) from rfl]
  apply parseDay2_some _ _ _ hd1 hd31
  rw [litThen_eq]
  apply parseMon2_some _ _ _ hm1 hm12
  rw [litThen_eq]
  rw [show year4Cs y = year4Cs y ++ [] from (List.append_nil _).symm]
  rw [parseYear4_eq _ _ _ hy]
  exact finishDate_nil hv

/-- The iso format fails on a day-first string: its third character is
a separator or space, never a digit. -/
theorem strpISO_none_sep (d : Nat) (c : Char) (X : List Char)
    (h : isDigitCh c = false) :
    strpISO (digit2Cs d ++ c :: X) = none := by
  unfold strpISO
  simp only [digit2Cs, List.cons_append, List.nil_append]
  exact parseYear4_none3 _ _ _ _ _ h

/-- The slash format fails when the separator after the day is not a
slash (backtracking to a one-digit day meets a digit, also no slash). -/
theorem strpSlash_none_sep (d : Nat) (c : Char) (rest : List Char)
    (h1 : 1 ≤ d) (h31 : d ≤ 31) (hc : (c == '/') = false) :
    strpSlash (digit2Cs d ++ c :: rest) = none := by
  unfold strpSlash
  apply parseDay2_none _ _ _ h1 h31
  · exact litThen_ne _ _ _ _ hc
  · exact litThen_ne _ _ _ _
      (digit_beq_nondigit (digitChar_isDigit (by omega)) (by decide))

/-- The dash format fails when the separator after the day is not a
dash. -/
theorem strpDash_none_sep (d : Nat) (c : Char) (rest : List Char)
    (h1 : 1 ≤ d) (h31 : d ≤ 31) (hc : (c == '-') = false) :
    strpDash (digit2Cs d ++ c :: rest) = none := by
  unfold strpDash
  apply parseDay2_none _ _ _ h1 h31
  · exact litThen_ne _ _ _ _ hc
  · exact litThen_ne _ _ _ _
      (digit_beq_nondigit (digitChar_isDigit (by omega)) (by decide))

/-- A format space consumes the leading space and then the whitespace
run of what follows. -/
theorem parseWs1_space {α : Type} (k : List Char → Option α) (X : List Char) :
    parseWs1 k (' ' :: X) = k (X.dropWhile isWsCh) := by
  simp [parseWs1, show isWsCh ' ' = true from by decide]

/-- A format space fails on a non-whitespace character. -/
theorem parseWs1_notws {α : Type} (k : List Char → Option α) (c : Char) (r : List Char)
    (h : isWsCh c = false) : parseWs1 k (c :: r) = none := by
  simp [parseWs1, h]

/-- The rendered month name followed by anything starts with a letter,
so a whitespace run stops in front of it. -/
theorem monthNameCap_dropWhile (m : Nat) (r : List Char) (h1 : 1 ≤ m) (h12 : m ≤ 12) :
    ((monthNameCap m).data ++ r).dropWhile isWsCh = (monthNameCap m).data ++ r := by
  interval_cases m <;> simp +decide [monthNameCap, List.dropWhile_cons]

theorem monthAbbrCap_dropWhile (m : Nat) (r : List Char) (h1 : 1 ≤ m) (h12 : m ≤ 12) :
    ((monthAbbrCap m).data ++ r).dropWhile isWsCh = (monthAbbrCap m).data ++ r := by
  interval_cases m <;> simp +decide [monthAbbrCap, List.dropWhile_cons]

theorem year4Cs_dropWhile (y : Nat) (hy : y ≤ 9999) :
    (year4Cs y).dropWhile isWsCh = year4Cs y := by
  simp [year4Cs, List.dropWhile_cons, digitChar_not_ws (show y / 1000 ≤ 9 by omega)]

theorem strpDayMonthFull_fmt (y m d : Nat)
    (hv : validDate (y : Int) (m : Int) (d : Int) = true) :
    strpDayMonthFull (fmtDayMonthFullY d m y).data = some ⟨(y : Int), (m : Int), (d : Int)⟩ := by
  obtain ⟨hm1, hm12, hd1, hd31, hy⟩ := validDate_nat_bounds hv
  unfold strpDayMonthFull fmtDayMonthFullY
  rw [show (String.mk (digit2Cs d ++ ' ' :: ((monthNameCap m).data ++ ' ' :: year4Cs y))).data
        = digit2Cs d ++ ' ' :: ((monthNameCap m).data ++ ' ' :: year4Cs y) from rfl]
  apply parseDay2_some _ _ _ hd1 hd31
  rw [parseWs1_space]
  rw [show ' ' :: year4Cs y = (' ' :: year4Cs y : List Char) from rfl,
    monthNameCap_dropWhile m (' ' :: year4Cs y) hm1 hm12]
  rw [parseNameFull_eq _ _ _ hm1 hm12]
  rw [parseWs1_space, year4Cs_dropWhile y hy]
  rw [show year4Cs y = year4Cs y ++ [] from (List.append_nil _).symm]
  rw [parseYear4_eq _ _ _ hy]
  exact finishDate_nil hv

theorem strpDayMonAbbr_fmt (y m d : Nat)
    (hv : validDate (y : Int) (m : Int) (d : Int) = true) :
    strpDayMonAbbr (fmtDayMonAbbrY d m y).data = some ⟨(y : Int), (m : Int), (d : Int)⟩ := by
  obtain ⟨hm1, hm12, hd1, hd31, hy⟩ := validDate_nat_bounds hv
  unfold strpDayMonAbbr fmtDayMonAbbrY
  rw [show (String.mk (digit2Cs d ++ ' ' :: ((monthAbbrCap m).data ++ ' ' :: year4Cs y))).data
        = digit2Cs d ++ ' ' :: ((monthAbbrCap m).data ++ ' ' :: year4Cs y) from rfl]
  apply parseDay2_some _ _ _ hd1 hd31
  rw [parseWs1_space]
  rw [monthAbbrCap_dropWhile m (' ' :: year4Cs y) hm1 hm12]
  rw [parseNameAbbr_eq _ _ _ hm1 hm12]
  rw [parseWs1_space, year4Cs_dropWhile y hy]
  rw [show year4Cs y = year4Cs y ++ [] from (List.append_nil _).symm]
  rw [parseYear4_eq _ _ _ hy]
  exact finishDate_nil hv

/-- The full-name format fails on the rendered abbreviation string,
except for May; both readings of the day fail. -/
theorem strpDayMonthFull_abbr_none (y m d : Nat) (h1 : 1 ≤ d) (h31 : d ≤ 31)
    (hm1 : 1 ≤ m) (hm12 : m ≤ 12) (h5 : m ≠ 5) :
    strpDayMonthFull (fmtDayMonAbbrY d m y).data = none := by
  unfold strpDayMonthFull fmtDayMonAbbrY
  rw [show (String.mk (digit2Cs d ++ ' ' :: ((monthAbbrCap m).data ++ ' ' :: year4Cs y))).data
        = digit2Cs d ++ ' ' :: ((monthAbbrCap m).data ++ ' ' :: year4Cs y) from rfl]
  apply parseDay2_none _ _ _ h1 h31
  · rw [parseWs1_space]
    rw [monthAbbrCap_dropWhile m (' ' :: year4Cs y) hm1 hm12]
    exact parseNameFull_abbr_none _ _ _ hm1 hm12 h5
  · exact parseWs1_notws _ _ _ (digitChar_not_ws (by omega))

theorem strpISO_none_fmtSlash (y m d : Nat) : strpISO (fmtSlashDMY d m y).data = none :=
  strpISO_none_sep d '/' _ (by decide)

theorem strpISO_none_fmtDash (y m d : Nat) : strpISO (fmtDashDMY d m y).data = none :=
  strpISO_none_sep d '-' _ (by decide)

theorem strpISO_none_fmtFull (y m d : Nat) : strpISO (fmtDayMonthFullY d m y).data = none :=
  strpISO_none_sep d ' ' _ (by decide)

theorem strpISO_none_fmtAbbr (y m d : Nat) : strpISO (fmtDayMonAbbrY d m y).data = none :=
  strpISO_none_sep d ' ' _ (by decide)

theorem strpSlash_none_fmtDash (y m d : Nat) (h1 : 1 ≤ d) (h31 : d ≤ 31) :
    strpSlash (fmtDashDMY d m y).data = none :=
  strpSlash_none_sep d '-' _ h1 h31 (by decide)

theorem strpSlash_none_fmtFull (y m d : Nat) (h1 : 1 ≤ d) (h31 : d ≤ 31) :
    strpSlash (fmtDayMonthFullY d m y).data = none :=
  strpSlash_none_sep d ' ' _ h1 h31 (by decide)

theorem strpSlash_none_fmtAbbr (y m d : Nat) (h1 : 1 ≤ d) (h31 : d ≤ 31) :
    strpSlash (fmtDayMonAbbrY d m y).data = none :=
  strpSlash_none_sep d ' ' _ h1 h31 (by decide)

theorem strpDash_none_fmtFull (y m d : Nat) (h1 : 1 ≤ d) (h31 : d ≤ 31) :
    strpDash (fmtDayMonthFullY d m y).data = none :=
  strpDash_none_sep d ' ' _ h1 h31 (by decide)

theorem strpDash_none_fmtAbbr (y m d : Nat) (h1 : 1 ≤ d) (h31 : d ≤ 31) :
    strpDash (fmtDayMonAbbrY d m y).data = none :=
  strpDash_none_sep d ' ' _ h1 h31 (by decide)

/-- The format loop parses the iso rendering at its first format. -/
theorem strptimeFirst_fmtISO (y m d : Nat)
    (hv : validDate (y : Int) (m : Int) (d : Int) = true) :
    strptimeFirst (fmtISO y m d).data = some ⟨(y : Int), (m : Int), (d : Int)⟩ := by
  unfold strptimeFirst
  rw [strpISO_fmt y m d hv]

/-- The format loop parses the slash rendering at its second format. -/
theorem strptimeFirst_fmtSlash (y m d : Nat)
    (hv : validDate (y : Int) (m : Int) (d : Int) = true) :
    strptimeFirst (fmtSlashDMY d m y).data = some ⟨(y : Int), (m : Int), (d : Int)⟩ := by
  unfold strptimeFirst
  rw [strpISO_none_fmtSlash y m d, strpSlash_fmt y m d hv]

/-- The format loop parses the dash rendering at its third format. -/
theorem strptimeFirst_fmtDash (y m d : Nat)
    (hv : validDate (y : Int) (m : Int) (d : Int) = true) :
    strptimeFirst (fmtDashDMY d m y).data = some ⟨(y : Int), (m : Int), (d : Int)⟩ := by
  obtain ⟨hm1, hm12, hd1, hd31, hy⟩ := validDate_nat_bounds hv
  unfold strptimeFirst
  rw [strpISO_none_fmtDash y m d, strpSlash_none_fmtDash y m d hd1 hd31,
    strpDash_fmt y m d hv]

/-- The format loop parses the full-month rendering at its fourth
format. -/
theorem strptimeFirst_fmtFull (y m d : Nat)
    (hv : validDate (y : Int) (m : Int) (d : Int) = true) :
    strptimeFirst (fmtDayMonthFullY d m y).data = some ⟨(y : Int), (m : Int), (d : Int)⟩ := by
  obtain ⟨hm1, hm12, hd1, hd31, hy⟩ := validDate_nat_bounds hv
  unfold strptimeFirst
  rw [strpISO_none_fmtFull y m d, strpSlash_none_fmtFull y m d hd1 hd31,
    strpDash_none_fmtFull y m d hd1 hd31, strpDayMonthFull_fmt y m d hv]

/-- The format loop parses the abbreviated-month rendering: at the
fifth format in general, and already at the fourth for May, whose full
name equals its abbreviation; the parsed date is the same. -/
theorem strptimeFirst_fmtAbbr (y m d : Nat)
    (hv : validDate (y : Int) (m : Int) (d : Int) = true) :
    strptimeFirst (fmtDayMonAbbrY d m y).data = some ⟨(y : Int), (m : Int), (d : Int)⟩ := by
  obtain ⟨hm1, hm12, hd1, hd31, hy⟩ := validDate_nat_bounds hv
  by_cases h5 : m = 5
  · subst h5
    exact strptimeFirst_fmtFull y 5 d hv
  · unfold strptimeFirst
    rw [strpISO_none_fmtAbbr y m d, strpSlash_none_fmtAbbr y m d hd1 hd31,
      strpDash_none_fmtAbbr y m d hd1 hd31,
      strpDayMonthFull_abbr_none y m d hd1 hd31 hm1 hm12 h5,
      strpDayMonAbbr_fmt y m d hv]

/-! ### Cleaning is the identity on the rendered formats -/

theorem forall_mem_append_ch {P : Char → Prop} {l1 l2 : List Char}
    (a : ∀ c ∈ l1, P c) (b : ∀ c ∈ l2, P c) : ∀ c ∈ l1 ++ l2, P c := by
  intro c hc
  rcases List.mem_append.mp hc with h | h
  · exact a c h
  · exact b c h

theorem forall_mem_cons_ch {P : Char → Prop} {c0 : Char} {l : List Char}
    (h0 : P c0) (h : ∀ c ∈ l, P c) : ∀ c ∈ c0 :: l, P c := by
  intro c hc
  rcases List.mem_cons.mp hc with h' | h'
  · exact h' ▸ h0
  · exact h c h'

theorem forall_mem_digit2 {P : Char → Prop} {n : Nat} (hn : n ≤ 99)
    (h : ∀ k, k ≤ 9 → P (digitChar k)) : ∀ c ∈ digit2Cs n, P c := by
  intro c hc
  simp [digit2Cs] at hc
  rcases hc with rfl | rfl
  · exact h _ (by omega)
  · exact h _ (by omega)

theorem forall_mem_year4 {P : Char → Prop} {y : Nat} (hy : y ≤ 9999)
    (h : ∀ k, k ≤ 9 → P (digitChar k)) : ∀ c ∈ year4Cs y, P c := by
  intro c hc
  simp [year4Cs] at hc
  rcases hc with rfl | rfl | rfl | rfl
  · exact h _ (by omega)
  · exact h _ (by omega)
  · exact h _ (by omega)
  · exact h _ (by omega)

theorem monthNameCap_noC (m : Nat) (h1 : 1 ≤ m) (h12 : m ≤ 12) :
    ∀ c ∈ (monthNameCap m).data, c ≠ 'C' := by
  interval_cases m <;> decide

theorem monthAbbrCap_noC (m : Nat) (h1 : 1 ≤ m) (h12 : m ≤ 12) :
    ∀ c ∈ (monthAbbrCap m).data, c ≠ 'C' := by
  interval_cases m <;> decide

theorem digitChar_neC_bounded : ∀ k, k ≤ 9 → digitChar k ≠ 'C' :=
  fun _ h => digitChar_ne_C h

theorem digitChar_notWs_bounded : ∀ k, k ≤ 9 → isWsCh (digitChar k) = false :=
  fun _ h => digitChar_not_ws h

/-- Whitespace-free data of the three digit formats. -/
theorem noWs_fmtISO (y m d : Nat) (hy : y ≤ 9999) (hm : m ≤ 12) (hd : d ≤ 31) :
    ∀ c ∈ (fmtISO y m d).data, isWsCh c = false :=
  forall_mem_append_ch (forall_mem_year4 hy digitChar_notWs_bounded)
    (forall_mem_cons_ch (by decide)
      (forall_mem_append_ch (forall_mem_digit2 (by omega) digitChar_notWs_bounded)
        (forall_mem_cons_ch (by decide)
          (forall_mem_digit2 (by omega) digitChar_notWs_bounded))))

theorem noWs_fmtSlash (y m d : Nat) (hy : y ≤ 9999) (hm : m ≤ 12) (hd : d ≤ 31) :
    ∀ c ∈ (fmtSlashDMY d m y).data, isWsCh c = false :=
  forall_mem_append_ch (forall_mem_digit2 (by omega) digitChar_notWs_bounded)
    (forall_mem_cons_ch (by decide)
      (forall_mem_append_ch (forall_mem_digit2 (by omega) digitChar_notWs_bounded)
        (forall_mem_cons_ch (by decide)
          (forall_mem_year4 hy digitChar_notWs_bounded))))

theorem noWs_fmtDash (y m d : Nat) (hy : y ≤ 9999) (hm : m ≤ 12) (hd : d ≤ 31) :
    ∀ c ∈ (fmtDashDMY d m y).data, isWsCh c = false :=
  forall_mem_append_ch (forall_mem_digit2 (by omega) digitChar_notWs_bounded)
    (forall_mem_cons_ch (by decide)
      (forall_mem_append_ch (forall_mem_digit2 (by omega) digitChar_notWs_bounded)
        (forall_mem_cons_ch (by decide)
          (forall_mem_year4 hy digitChar_notWs_bounded))))

theorem noC_fmtISO (y m d : Nat) (hy : y ≤ 9999) (hm : m ≤ 12) (hd : d ≤ 31) :
    ∀ c ∈ (fmtISO y m d).data, c ≠ 'C' :=
  forall_mem_append_ch (forall_mem_year4 hy digitChar_neC_bounded)
    (forall_mem_cons_ch (by decide)
      (forall_mem_append_ch (forall_mem_digit2 (by omega) digitChar_neC_bounded)
        (forall_mem_cons_ch (by decide)
          (forall_mem_digit2 (by omega) digitChar_neC_bounded))))

theorem noC_fmtSlash (y m d : Nat) (hy : y ≤ 9999) (hm : m ≤ 12) (hd : d ≤ 31) :
    ∀ c ∈ (fmtSlashDMY d m y).data, c ≠ 'C' :=
  forall_mem_append_ch (forall_mem_digit2 (by omega) digitChar_neC_bounded)
    (forall_mem_cons_ch (by decide)
      (forall_mem_append_ch (forall_mem_digit2 (by omega) digitChar_neC_bounded)
        (forall_mem_cons_ch (by decide)
          (forall_mem_year4 hy digitChar_neC_bounded))))

theorem noC_fmtDash (y m d : Nat) (hy : y ≤ 9999) (hm : m ≤ 12) (hd : d ≤ 31) :
    ∀ c ∈ (fmtDashDMY d m y).data, c ≠ 'C' :=
  forall_mem_append_ch (forall_mem_digit2 (by omega) digitChar_neC_bounded)
    (forall_mem_cons_ch (by decide)
      (forall_mem_append_ch (forall_mem_digit2 (by omega) digitChar_neC_bounded)
        (forall_mem_cons_ch (by decide)
          (forall_mem_year4 hy digitChar_neC_bounded))))

theorem noC_fmtFull (y m d : Nat) (hy : y ≤ 9999) (hm1 : 1 ≤ m) (hm12 : m ≤ 12)
    (hd : d ≤ 31) : ∀ c ∈ (fmtDayMonthFullY d m y).data, c ≠ 'C' :=
  forall_mem_append_ch (forall_mem_digit2 (by omega) digitChar_neC_bounded)
    (forall_mem_cons_ch (by decide)
      (forall_mem_append_ch (monthNameCap_noC m hm1 hm12)
        (forall_mem_cons_ch (by decide)
          (forall_mem_year4 hy digitChar_neC_bounded))))

theorem noC_fmtAbbr (y m d : Nat) (hy : y ≤ 9999) (hm1 : 1 ≤ m) (hm12 : m ≤ 12)
    (hd : d ≤ 31) : ∀ c ∈ (fmtDayMonAbbrY d m y).data, c ≠ 'C' :=
  forall_mem_append_ch (forall_mem_digit2 (by omega) digitChar_neC_bounded)
    (forall_mem_cons_ch (by decide)
      (forall_mem_append_ch (monthAbbrCap_noC m hm1 hm12)
        (forall_mem_cons_ch (by decide)
          (forall_mem_year4 hy digitChar_neC_bounded))))

/-- Cleaning is the identity on a whitespace-free, C-free string. -/
theorem cleanDateCs_noop_of_noWs (s : String)
    (hC : ∀ c ∈ s.data, c ≠ 'C') (hW : ∀ c ∈ s.data, isWsCh c = false) :
    cleanDateCs s = s.data := by
  unfold cleanDateCs
  rw [removeClosingTag_noC _ hC]
  exact pyStrip_noop_of_noWs _ hW

/-- Cleaning is the identity on the two month-name formats: they start
and end with a digit. -/
theorem cleanDateCs_noop_fmtFull (y m d : Nat) (hy : y ≤ 9999) (hm1 : 1 ≤ m)
    (hm12 : m ≤ 12) (hd : d ≤ 31) :
    cleanDateCs (fmtDayMonthFullY d m y) = (fmtDayMonthFullY d m y).data := by
  unfold cleanDateCs
  rw [removeClosingTag_noC _ (noC_fmtFull y m d hy hm1 hm12 hd)]
  apply pyStrip_noop
  · intro c hc
    simp only [fmtDayMonthFullY] at hc
    simp [digit2Cs] at hc
    exact hc ▸ digitChar_not_ws (by omega)
  · intro c hc
    simp only [fmtDayMonthFullY] at hc
    simp [digit2Cs, year4Cs, List.reverse_append] at hc
    exact hc ▸ digitChar_not_ws (by omega)

theorem cleanDateCs_noop_fmtAbbr (y m d : Nat) (hy : y ≤ 9999) (hm1 : 1 ≤ m)
    (hm12 : m ≤ 12) (hd : d ≤ 31) :
    cleanDateCs (fmtDayMonAbbrY d m y) = (fmtDayMonAbbrY d m y).data := by
  unfold cleanDateCs
  rw [removeClosingTag_noC _ (noC_fmtAbbr y m d hy hm1 hm12 hd)]
  apply pyStrip_noop
  · intro c hc
    simp only [fmtDayMonAbbrY] at hc
    simp [digit2Cs] at hc
    exact hc ▸ digitChar_not_ws (by omega)
  · intro c hc
    simp only [fmtDayMonAbbrY] at hc
    simp [digit2Cs, year4Cs, List.reverse_append] at hc
    exact hc ▸ digitChar_not_ws (by omega)

/-- The flexible parser returns the strftime rendering of whatever the
format loop parses, when cleaning does not change the input. -/
theorem flexible_ok (now : PyDateTime) (s : String) (dte : CivilDate)
    (hne : s.data ≠ []) (hclean : cleanDateCs s = s.data)
    (hp : strptimeFirst s.data = some dte) :
    parse_date_flexible now s = Except.ok (some (strftimeISO dte)) := by
  unfold parse_date_flexible
  simp only [beq_empty_false hne, Bool.false_eq_true, if_false]
  rw [hclean, hp]

/-- On whitespace-free input the regex rewrite of
calculate_days_remaining does not fire, and the result is the clamped
day difference of whatever the format loop parses. -/
theorem calculate_of_noWs (now : PyDateTime) (s : String) (dte : CivilDate)
    (hW : ∀ c ∈ s.data, isWsCh c = false)
    (hp : strptimeFirst s.data = some dte) :
    calculate_days_remaining now s
      = max 0 (tdDays (epochSecs ⟨dte.year, dte.month, dte.day, 0⟩) (epochSecs now)) := by
  simp only [calculate_days_remaining, dayMonSearch_none _ hW, hp]

/-- Claim C4 counterexample: the input string 10 March 2020 is in the
supported full format DD Month YYYY and denotes 2020-03-10 (the
flexible parser returns exactly that date, and its clamped day count
from the reference instant is 0); but calculate_days_remaining applies
the regex day-month extraction BEFORE the full formats, discards the
explicit year 2020 in favour of the inferred year 2026, and returns 59
days. -/
theorem c4_regex_rewrite_overrides_explicit_year :
    strptimeFirst ("10 March 2020").data = some ⟨2020, 3, 10⟩
    ∧ parse_date_flexible probeNow "10 March 2020" = Except.ok (some "2020-03-10")
    ∧ max 0 (tdDays (epochSecs ⟨2020, 3, 10, 0⟩) (epochSecs probeNow)) = 0
    ∧ calculate_days_remaining probeNow "10 March 2020" = 59 := by
  decide

/-- Claim C4 amended: the flexible parser does attempt the five full
formats in their fixed priority order and returns exactly the denoted
date for each canonical rendering, with the regex fallback reached only
after all formats fail; calculate_days_remaining, which applies the
regex rewrite FIRST, agrees with the denoted date only on the three
digit-separator formats (the two month-name formats contain the
day-space-letters shape the regex captures, so their explicit year can
be replaced by the inferred one, as the counterexample shows). -/
theorem c4_amended_full_format_priority (y m d : Nat) (now : PyDateTime)
    (hv : validDate (y : Int) (m : Int) (d : Int) = true) :
    (parse_date_flexible now (fmtISO y m d)
        = Except.ok (some (strftimeISO ⟨(y : Int), (m : Int), (d : Int)⟩))
     ∧ parse_date_flexible now (fmtSlashDMY d m y)
        = Except.ok (some (strftimeISO ⟨(y : Int), (m : Int), (d : Int)⟩))
     ∧ parse_date_flexible now (fmtDashDMY d m y)
        = Except.ok (some (strftimeISO ⟨(y : Int), (m : Int), (d : Int)⟩))
     ∧ parse_date_flexible now (fmtDayMonthFullY d m y)
        = Except.ok (some (strftimeISO ⟨(y : Int), (m : Int), (d : Int)⟩))
     ∧ parse_date_flexible now (fmtDayMonAbbrY d m y)
        = Except.ok (some (strftimeISO ⟨(y : Int), (m : Int), (d : Int)⟩)))
    ∧ (calculate_days_remaining now (fmtISO y m d)
        = max 0 (tdDays (epochSecs ⟨(y : Int), (m : Int), (d : Int), 0⟩) (epochSecs now))
     ∧ calculate_days_remaining now (fmtSlashDMY d m y)
        = max 0 (tdDays (epochSecs ⟨(y : Int), (m : Int), (d : Int), 0⟩) (epochSecs now))
     ∧ calculate_days_remaining now (fmtDashDMY d m y)
        = max 0 (tdDays (epochSecs ⟨(y : Int), (m : Int), (d : Int), 0⟩) (epochSecs now))) := by
  obtain ⟨hm1, hm12, hd1, hd31, hy⟩ := validDate_nat_bounds hv
  refine ⟨⟨?_, ?_, ?_, ?_, ?_⟩, ?_, ?_, ?_⟩
  · exact flexible_ok now _ _ (by simp [fmtISO, year4Cs])
      (cleanDateCs_noop_of_noWs _ (noC_fmtISO y m d hy hm12 hd31)
        (noWs_fmtISO y m d hy hm12 hd31))
      (strptimeFirst_fmtISO y m d hv)
  · exact flexible_ok now _ _ (by simp [fmtSlashDMY, digit2Cs])
      (cleanDateCs_noop_of_noWs _ (noC_fmtSlash y m d hy hm12 hd31)
        (noWs_fmtSlash y m d hy hm12 hd31))
      (strptimeFirst_fmtSlash y m d hv)
  · exact flexible_ok now _ _ (by simp [fmtDashDMY, digit2Cs])
      (cleanDateCs_noop_of_noWs _ (noC_fmtDash y m d hy hm12 hd31)
        (noWs_fmtDash y m d hy hm12 hd31))
      (strptimeFirst_fmtDash y m d hv)
  · exact flexible_ok now _ _ (by simp [fmtDayMonthFullY, digit2Cs])
      (cleanDateCs_noop_fmtFull y m d hy hm1 hm12 hd31)
      (strptimeFirst_fmtFull y m d hv)
  · exact flexible_ok now _ _ (by simp [fmtDayMonAbbrY, digit2Cs])
      (cleanDateCs_noop_fmtAbbr y m d hy hm1 hm12 hd31)
      (strptimeFirst_fmtAbbr y m d hv)
  · exact calculate_of_noWs now (fmtISO y m d) ⟨(y : Int), (m : Int), (d : Int)⟩
      (noWs_fmtISO y m d hy hm12 hd31) (strptimeFirst_fmtISO y m d hv)
  · exact calculate_of_noWs now (fmtSlashDMY d m y) ⟨(y : Int), (m : Int), (d : Int)⟩
      (noWs_fmtSlash y m d hy hm12 hd31) (strptimeFirst_fmtSlash y m d hv)
  · exact calculate_of_noWs now (fmtDashDMY d m y) ⟨(y : Int), (m : Int), (d : Int)⟩
      (noWs_fmtDash y m d hy hm12 hd31) (strptimeFirst_fmtDash y m d hv)

/-- Witness for the amended C4 theorem at 2026-03-18. -/
theorem c4_amended_full_format_priority_witness :
    parse_date_flexible probeNow (fmtSlashDMY 18 3 2026)
      = Except.ok (some (strftimeISO ⟨2026, 3, 18⟩))
    ∧ calculate_days_remaining probeNow (fmtISO 2026 3 18)
      = max 0 (tdDays (epochSecs ⟨2026, 3, 18, 0⟩) (epochSecs probeNow)) :=
  ⟨(c4_amended_full_format_priority 2026 3 18 probeNow (by decide)).1.2.1,
   (c4_amended_full_format_priority 2026 3 18 probeNow (by decide)).2.1⟩
